import Mathlib

/-! OMCI communication channel of the ONU adapter (`omci_cc.go`).

Shallow embedding of `internal/pkg/onuadaptercore/omci_cc.go` and
`messageTypes.go`.

* `uint16`/`uint8` values are natural numbers; every increment that can
  overflow is followed by an explicit `% 65536`.
* A byte slice is a `List Nat`; a slice expression that aliases its parent
  (`rxMsg[42:44]`) is modelled by reading and writing the parent at the
  absolute offsets.
* A Go `error` is an `Option String` (`none` is `nil`).
* `sync.Mutex` pairs that are released on every path (`mutexTid`,
  `mutexHpTid`, `mutexRxSchedMap`) leave no trace in the state; `mutexTxQueue`,
  which `sendNextRequest` holds across its early returns, is an explicit flag.
* Detached calls (`go f(...)`) and calls into collaborators are recorded as
  events, in program order.
-/

namespace adaptercoreonu

/-! ## Constants -/

def ConstDefaultOmciTimeout : Nat := 10
def galEthernetEID : Nat := 1
def maxGemPayloadSize : Nat := 48
def connectivityModeValue : Nat := 5
def defaultTPID : Nat := 0x8100
def broadComDefaultVID : Nat := 4091
def macBridgeServiceProfileEID : Nat := 0x201
def ieeeMapperServiceProfileEID : Nat := 0x8001
def macBridgePortAniEID : Nat := 0x2102

/-- Modelled from the spec: the constant `me.AK` of the OMCI library, the
"acknowledge" bit `0x20` of the message-type byte. It is a typed `byte`
constant there (the expression `^me.AK` would not fit a byte otherwise). -/
def AK : Nat := 0x20

/-! ## Data model -/

/-- The decoded OMCI header, `omci.OMCI` of the codec library. -/
structure OMCI where
  TransactionID : Nat
  MessageType : Nat
  DeviceIdentifier : Nat
  Payload : List Nat
  deriving DecidableEq, Repr

/-- A decoded layer of a packet. -/
inductive Layer where
  | omci (m : OMCI)
  | other (layerType : Nat)
  deriving DecidableEq, Repr

/-- What `gopacket.NewPacket` hands back: the bytes it was built over (no copy)
and the result of `packet.Layer(omci.LayerTypeOMCI)`. -/
structure Packet where
  data : List Nat
  omciLayer : Option Layer
  deriving DecidableEq, Repr

/-- The functions that can be stored as `cbFunction`. -/
inductive CbFunction where
  | receiveOmciResponse
  | external (id : Nat)
  deriving DecidableEq, Repr

/-- Go `CallbackPairEntry`; a channel is named by a number, a nil function is
`none`. -/
structure CallbackPairEntry where
  cbRespChannel : Nat
  cbFunction : Option CbFunction
  deriving DecidableEq, Repr

/-- Go `CallbackPair`. -/
structure CallbackPair where
  cbKey : Nat
  cbEntry : CallbackPairEntry
  deriving DecidableEq, Repr

/-- Go `omciTransferStructure`. -/
structure omciTransferStructure where
  txFrame : List Nat
  timeout : Int
  retry : Int
  highPrio : Bool
  deriving DecidableEq, Repr

/-- A state machine of the device entry, of which only `commChan` is used. -/
structure Fsm where
  commChan : Nat
  deriving DecidableEq, Repr

/-- The part of `OnuDeviceEntry` the channel reads. -/
structure OnuDeviceEntry where
  pMibUploadFsm : Option Fsm
  pMibDownloadFsm : Option Fsm
  deriving DecidableEq, Repr

/-- The part of `DeviceHandler` the channel reads. -/
structure DeviceHandler where
  deviceID : String
  DeviceType : String
  ProxyAddressType : String
  ProxyAddressID : String
  deriving DecidableEq, Repr

/-- Go `map[uint16]CallbackPairEntry`. -/
abbrev RxSchedulerMap := Nat → Option CallbackPairEntry

/-- Go `OmciCC`. The proxies are named by a number; what they answer is given
to the operations that call them. -/
structure OmciCC where
  enabled : Bool
  pOnuDeviceEntry : Option OnuDeviceEntry
  deviceID : String
  pBaseDeviceHandler : Option DeviceHandler
  coreProxy : Nat
  adapterProxy : Nat
  supportExtMsg : Bool
  txFrames : Nat
  txOnuFrames : Nat
  rxFrames : Nat
  rxOnuFrames : Nat
  rxOnuDiscards : Nat
  tid : Nat
  hpTid : Nat
  uploadSequNo : Nat
  uploadNoOfCmds : Nat
  mutexTxQueue : Bool
  txQueue : List omciTransferStructure
  rxSchedulerMap : RxSchedulerMap

/-- What an operation does besides changing the `OmciCC`. -/
inductive Event where
  | rxMapLookup (tid : Nat)
  | rxMapStore (tid : Nat) (e : CallbackPairEntry)
  | rxMapDelete (tid : Nat)
  | onuMessage (msg : OMCI)
  | goCallback (fn : CbFunction) (msg : OMCI) (packet : Packet) (respChan : Nat)
  | txEnqueue (d : omciTransferStructure)
  | goSendNextRequest
  | getDevice (parent child : String) (device : Option Nat) (err : Option String)
  | sendInterAdapterMessage (frame : List Nat)
      (fromType toType toDeviceId proxyDeviceId : String) (sendErr : Option String)
  deriving DecidableEq, Repr

/-- How a call that may fault or wait ends. -/
inductive Outcome (α : Type) where
  | returned (a : α)
  | panicked
  | blocked

/-! ## Construction and TID allocation -/

/-- Go `NewOmciCC`. -/
def NewOmciCC (onu_device_entry : Option OnuDeviceEntry) (device_id : String)
    (device_handler : Option DeviceHandler) (core_proxy adapter_proxy : Nat) : OmciCC :=
  { enabled := false
    pOnuDeviceEntry := onu_device_entry
    deviceID := device_id
    pBaseDeviceHandler := device_handler
    coreProxy := core_proxy
    adapterProxy := adapter_proxy
    supportExtMsg := false
    txFrames := 0
    txOnuFrames := 0
    rxFrames := 0
    rxOnuFrames := 0
    rxOnuDiscards := 0
    tid := 0x1
    hpTid := 0x8000
    uploadSequNo := 0
    uploadNoOfCmds := 0
    mutexTxQueue := false
    txQueue := []
    rxSchedulerMap := fun _ => none }

/-- Go `OmciCC.GetNextTid`: the value handed out and the state afterwards. -/
def GetNextTid (oo : OmciCC) (highPriority : Bool) : Nat × OmciCC :=
  if highPriority then
    let next := oo.hpTid
    let hpTid := (oo.hpTid + 1) % 65536
    let hpTid := if hpTid < 0x8000 then 0x8000 else hpTid
    (next, { oo with hpTid := hpTid })
  else
    let next := oo.tid
    let tid := (oo.tid + 1) % 65536
    let tid := if tid ≥ 0x8000 then 1 else tid
    (next, { oo with tid := tid })

/-- A sequence of `GetNextTid` calls, one per priority flag: the values handed
out, in call order, and the final state. -/
def allocTids (oo : OmciCC) : List Bool → List Nat × OmciCC
  | [] => ([], oo)
  | p :: ps =>
    let r := GetNextTid oo p
    let rest := allocTids r.2 ps
    (r.1 :: rest.1, rest.2)

/-- The range invariant of the two counters. -/
def TidsInRange (oo : OmciCC) : Prop :=
  (1 ≤ oo.tid ∧ oo.tid ≤ 0x7FFF) ∧ (0x8000 ≤ oo.hpTid ∧ oo.hpTid ≤ 0xFFFF)

/-- The range a TCID of the given priority must lie in. -/
def InPriorityRange (highPriority : Bool) (t : Nat) : Prop :=
  if highPriority then 0x8000 ≤ t ∧ t ≤ 0xFFFF else 0x0001 ≤ t ∧ t ≤ 0x7FFF

/-- Bit 15 of a 16-bit value. -/
def highBit (t : Nat) : Bool := t.testBit 15

/-- The counters of `oo` are those some sequence of `GetNextTid` calls leaves
behind when started on a fresh `NewOmciCC` (no other operation writes them). -/
def ReachableTids (oo : OmciCC) : Prop :=
  ∃ (e : Option OnuDeviceEntry) (d : String) (h : Option DeviceHandler) (c a : Nat)
    (flags : List Bool),
    (allocTids (NewOmciCC e d h c a) flags).2.tid = oo.tid ∧
    (allocTids (NewOmciCC e d h c a) flags).2.hpTid = oo.hpTid

/-- The TCIDs returned by `k` consecutive calls of one priority. -/
def consecutiveTids (oo : OmciCC) (highPriority : Bool) (k : Nat) : List Nat :=
  (allocTids oo (List.replicate k highPriority)).1

/-- The state after `k` consecutive calls of one priority. -/
def afterTids (oo : OmciCC) (highPriority : Bool) (k : Nat) : OmciCC :=
  (allocTids oo (List.replicate k highPriority)).2

/-- Closed form of the low-priority counter `n` calls after it held `t`. -/
def lowAt (t n : Nat) : Nat := 1 + (t - 1 + n) % 0x7FFF

/-- Closed form of the high-priority counter `n` calls after it held `h`. -/
def highAt (h n : Nat) : Nat := 0x8000 + (h - 0x8000 + n) % 0x8000

/-- The TCIDs, among those returned by a sequence of `GetNextTid` calls, that
were returned to the calls of the given priority, in call order. -/
def emittedTo (highPriority : Bool) (flags : List Bool) (tids : List Nat) : List Nat :=
  (flags.zip tids).filterMap fun x => if x.1 = highPriority then some x.2 else none

/-! ## Receive path -/

/-- Go `binary.BigEndian.Uint16(rxMsg[42:44])` on a buffer of bytes. -/
def trailerLen (rxMsg : List Nat) : Nat :=
  rxMsg.getD 42 0 * 256 + rxMsg.getD 43 0

/-- Go `binary.BigEndian.PutUint16(rxMsg[42:44], v)`: the slice shares the
buffer's storage, so the two bytes are written in place. -/
def putTrailerLen (rxMsg : List Nat) (v : Nat) : List Nat :=
  (rxMsg.set 42 (v / 256 % 256)).set 43 (v % 256)

/-- Go `OmciCC.ReceiveOnuMessage`: the whole body but the last line is
commented out. -/
def ReceiveOnuMessage (oo : OmciCC) (_omciMsg : OMCI) : Option String × OmciCC :=
  (some "ReceiveOnuMessage unimplemented", oo)

/-- What `ReceiveMessage` leaves behind: the returned error, the caller's
buffer, the state and the events. -/
structure RxResult where
  err : Option String
  rxMsg : List Nat
  oo : OmciCC
  events : List Event

/-- Go `OmciCC.ReceiveMessage`. `NewPacket` is the codec
(`gopacket.NewPacket(rxMsg, omci.LayerTypeOMCI, gopacket.NoCopy)`). -/
def ReceiveMessage (NewPacket : List Nat → Option Packet) (oo : OmciCC)
    (rxMsg : List Nat) : RxResult :=
  if rxMsg.length ≥ 44 then
    let rxMsg := if trailerLen rxMsg ≠ 40 then putTrailerLen rxMsg 40 else rxMsg
    match NewPacket rxMsg with
    | none => ⟨some "could not decode rxMsg as OMCI", rxMsg, oo, []⟩
    | some packet =>
      match packet.omciLayer with
      | none => ⟨some "could not decode omci layer", rxMsg, oo, []⟩
      | some (.other _) => ⟨some "could not assign omci layer", rxMsg, oo, []⟩
      | some (.omci omciMsg) =>
        if (omciMsg.MessageType % 256) &&& (AK ^^^ 0xFF) = 0 then
          if omciMsg.TransactionID = 0 then
            let r := ReceiveOnuMessage oo omciMsg
            ⟨r.1, rxMsg, r.2, [.onuMessage omciMsg]⟩
          else
            ⟨some "Autonomous Omci Message with TranSCorrId != 0 not acccepted", rxMsg, oo, []⟩
        else
          match oo.rxSchedulerMap omciMsg.TransactionID with
          | some ⟨cbRespChannel, some cbFunction⟩ =>
            ⟨none, rxMsg,
              { oo with rxSchedulerMap :=
                  Function.update oo.rxSchedulerMap omciMsg.TransactionID none },
              [.rxMapLookup omciMsg.TransactionID,
               .goCallback cbFunction omciMsg packet cbRespChannel,
               .rxMapDelete omciMsg.TransactionID]⟩
          | _ =>
            ⟨some "could not find registered response handler tor transCorrId", rxMsg, oo,
              [.rxMapLookup omciMsg.TransactionID]⟩
  else
    ⟨some "RxOmciMessage to small for BaseFormat", rxMsg, oo, []⟩

/-- The stored callbacks launched by a run. -/
def launched : List Event → List Event :=
  List.filter fun e => match e with
    | .goCallback _ _ _ _ => true
    | _ => false

/-- The calls of the ONU-message handler made by a run. -/
def onuMessages : List Event → List Event :=
  List.filter fun e => match e with
    | .onuMessage _ => true
    | _ => false

/-- The accesses to the RX scheduler map made by a run. -/
def rxMapAccesses : List Event → List Event :=
  List.filter fun e => match e with
    | .rxMapLookup _ => true
    | .rxMapStore _ _ => true
    | .rxMapDelete _ => true
    | _ => false

/-- The acknowledge bit of a message-type byte is set. -/
def ackSet (messageType : Nat) : Prop := messageType &&& AK ≠ 0

instance (messageType : Nat) : Decidable (ackSet messageType) := by
  unfold ackSet; infer_instance

/-- The buffer as `ReceiveMessage` leaves it once the length check has passed:
the trailer length is rewritten to 40 unless it is 40 already. -/
def repairTrailer (rxMsg : List Nat) : List Nat :=
  if trailerLen rxMsg ≠ 40 then putTrailerLen rxMsg 40 else rxMsg

/-- The message-type code of `AlarmNotification` (G.988), acknowledge bit clear. -/
def AlarmNotificationType : Nat := 16

/-- The message-type byte of a MIB reset response: code 15 with the
acknowledge bit. -/
def MibResetResponseType : Nat := 15 + AK

/-- The message-type byte of a well-formed response: the acknowledge bit is set
and the byte is more than the bare acknowledge bit, i.e. it carries a
message-type code (G.988 defines no message type 0). -/
def isResponseType (messageType : Nat) : Prop :=
  ackSet messageType ∧ messageType % 256 ≠ AK

instance (messageType : Nat) : Decidable (isResponseType messageType) := by
  unfold isResponseType; infer_instance

/-- The message-type code of `AttributeValueChange` (G.988), acknowledge bit
clear. -/
def AttributeValueChangeType : Nat := 17

/-- The message-type code of `TestResult` (G.988), acknowledge bit clear. -/
def TestResultType : Nat := 27

/-! ## Messages to the state machines (`messageTypes.go`) -/

/-- Go `MessageType`. -/
inductive MessageType where
  | TestMsg
  | OMCI
  deriving DecidableEq, Repr

/-- Go `TestMessageType`. -/
inductive TestMessageType where
  | noOperation
  | LoadMibTemplateOk
  | LoadMibTemplateFailed
  | TimeOutOccurred
  | AbortMessageProcessing
  deriving DecidableEq, Repr

/-- Go `TestMessage`. -/
structure TestMessage where
  TestMessageVal : TestMessageType
  deriving DecidableEq, Repr

/-- Go `OmciMessage`. -/
structure OmciMessage where
  OmciMsg : OMCI
  OmciPacket : Packet
  deriving DecidableEq, Repr

/-- What the `Data interface{}` of a `Message` holds. -/
inductive MessageData where
  | testMessage (m : TestMessage)
  | omciMessage (m : OmciMessage)
  deriving DecidableEq, Repr

/-- Go `Message`; `MsgType` is the field `Type`. -/
structure Message where
  MsgType : MessageType
  Data : MessageData
  deriving DecidableEq, Repr

/-- Go `OmciCC.receiveOmciResponse`: the returned error and the sends it makes,
each a channel and the message put on it. The `OmciCC` is only read. -/
def receiveOmciResponse (oo : OmciCC) (omciMsg : OMCI) (packet : Packet) (respChan : Nat) :
    Option String × List (Nat × Message) :=
  match oo.pOnuDeviceEntry with
  | none => (some "DeviceEntryPointer is nil", [])
  | some _ =>
    let omciRespMsg : Message := ⟨.OMCI, .omciMessage ⟨omciMsg, packet⟩⟩
    (none, [(respChan, omciRespMsg)])

/-! ## Transmit path -/

/-- What a call that returns an `error` leaves behind. -/
structure CallResult where
  err : Option String
  oo : OmciCC
  events : List Event

/-- Go `OmciCC.Send`. The detached drain (`go oo.sendNextRequest(ctx)`) is an
event; the state is the one before any drain runs. -/
def Send (oo : OmciCC) (txFrame : List Nat) (timeout : Int) (retry : Int) (highPrio : Bool)
    (receiveCallbackPair : CallbackPair) : Outcome CallResult :=
  let rxSchedulerMap :=
    Function.update oo.rxSchedulerMap receiveCallbackPair.cbKey (some receiveCallbackPair.cbEntry)
  let oo := { oo with rxSchedulerMap := rxSchedulerMap }
  let omciTxRequest : omciTransferStructure := ⟨txFrame, timeout, retry, highPrio⟩
  if oo.mutexTxQueue then .blocked
  else
    let oo := { oo with txQueue := oo.txQueue ++ [omciTxRequest] }
    .returned ⟨none, oo,
      [.rxMapStore receiveCallbackPair.cbKey receiveCallbackPair.cbEntry,
       .txEnqueue omciTxRequest, .goSendNextRequest]⟩

/-- The loop of `sendNextRequest`, entered with `mutexTxQueue` held: `n` counts
the iterations already made, the list is `oo.txQueue` at the head of the
iteration, `ev` the events so far. `GetDevice` and `SendInterAdapterMessage`
give what the core proxy and the adapter proxy answer to the call of iteration
`n`. The two early returns leave the mutex held. -/
def drainLoop (GetDevice : Nat → String → String → Option Nat × Option String)
    (SendInterAdapterMessage : Nat → List Nat → Option String) (oo : OmciCC) :
    Nat → List omciTransferStructure → List Event → Outcome CallResult
  | _, [], ev => .returned ⟨none, { oo with txQueue := [], mutexTxQueue := false }, ev⟩
  | n, omciTxRequest :: rest, ev =>
    match oo.pBaseDeviceHandler with
    | none => .panicked
    | some dh =>
      let r := GetDevice n dh.deviceID oo.deviceID
      let ev := ev ++ [.getDevice dh.deviceID oo.deviceID r.1 r.2]
      if r.2 ≠ none ∨ r.1 = none then
        .returned ⟨some "failed to fetch device",
          { oo with txQueue := omciTxRequest :: rest, mutexTxQueue := true }, ev⟩
      else
        let sendErr := SendInterAdapterMessage n omciTxRequest.txFrame
        let ev := ev ++ [.sendInterAdapterMessage omciTxRequest.txFrame dh.DeviceType
          dh.ProxyAddressType oo.deviceID dh.ProxyAddressID sendErr]
        match sendErr with
        | some e =>
          .returned ⟨some e,
            { oo with txQueue := omciTxRequest :: rest, mutexTxQueue := true }, ev⟩
        | none => drainLoop GetDevice SendInterAdapterMessage oo (n + 1) rest ev

/-- Go `OmciCC.sendNextRequest`. -/
def sendNextRequest (GetDevice : Nat → String → String → Option Nat × Option String)
    (SendInterAdapterMessage : Nat → List Nat → Option String) (oo : OmciCC) :
    Outcome CallResult :=
  if oo.mutexTxQueue then .blocked
  else drainLoop GetDevice SendInterAdapterMessage oo 0 oo.txQueue []

/-- The frames the transport accepted during a run, in the order of the calls. -/
def transmitted : List Event → List (List Nat) :=
  List.filterMap fun e => match e with
    | .sendInterAdapterMessage frame _ _ _ _ none => some frame
    | _ => none

/-- The frames handed to the transport during a run, accepted or not. -/
def handedOver : List Event → List (List Nat) :=
  List.filterMap fun e => match e with
    | .sendInterAdapterMessage frame _ _ _ _ _ => some frame
    | _ => none

/-! ## Request builders -/

/-- The managed-entity classes named in the builders (`me.ClassID`). -/
inductive ClassID where
  | OnuDataClassID
  | other (id : Nat)
  deriving DecidableEq, Repr

/-- The message types the builders send (`omci.MessageType` constants). -/
inductive OmciMsgType where
  | MibResetRequestType
  | MibUploadRequestType
  | MibUploadNextRequestType
  | CreateRequestType
  | SetRequestType
  | GetRequestType
  deriving DecidableEq, Repr

/-- The layers handed to the serializer after the OMCI header
(`gopacket.SerializableLayer`): the three MIB requests built here, and the
message layers that `omci.EncodeFrame` returns. -/
inductive SerializableLayer where
  | MibResetRequest (EntityClass : ClassID)
  | MibUploadRequest (EntityClass : ClassID)
  | MibUploadNextRequest (EntityClass : ClassID) (CommandSequenceNumber : Nat)
  | encoded (id : Nat)
  deriving DecidableEq, Repr

/-- The header layer `&omci.OMCI{TransactionID, MessageType}` of a request. -/
structure OmciLayer where
  TransactionID : Nat
  MessageType : OmciMsgType
  deriving DecidableEq, Repr

/-- The serializer `gopacket.SerializeLayers`, given the `FixLengths` option,
the header layer and the request layer. -/
abbrev SerializeLayers := Bool → OmciLayer → SerializableLayer → Except String (List Nat)

/-- Go `serializeOmciLayer`. -/
def serializeOmciLayer (SerializeLayers : SerializeLayers) (a_omciLayer : OmciLayer)
    (a_request : SerializableLayer) : Except String (List Nat) :=
  match SerializeLayers true a_omciLayer a_request with
  | .error err => .error err
  | .ok bytes => .ok bytes

/-- Go `serialize`. -/
def serialize (SerializeLayers : SerializeLayers) (msgType : OmciMsgType)
    (request : SerializableLayer) (tid : Nat) : Except String (List Nat) :=
  serializeOmciLayer SerializeLayers ⟨tid, msgType⟩ request

/-- Go `OmciCC.sendMibReset`. Reading the channel of the MIB-upload state
machine through `pOnuDeviceEntry` faults when either pointer is nil. -/
def sendMibReset (SerializeLayers : SerializeLayers) (oo : OmciCC) (timeout : Int)
    (highPrio : Bool) : Outcome CallResult :=
  let request := SerializableLayer.MibResetRequest .OnuDataClassID
  let tid := (GetNextTid oo highPrio).1
  let oo := (GetNextTid oo highPrio).2
  match serialize SerializeLayers .MibResetRequestType request tid with
  | .error err => .returned ⟨some err, oo, []⟩
  | .ok pkt =>
    match oo.pOnuDeviceEntry with
    | none => .panicked
    | some entry =>
      match entry.pMibUploadFsm with
      | none => .panicked
      | some fsm =>
        Send oo pkt timeout 0 highPrio ⟨tid, ⟨fsm.commChan, some .receiveOmciResponse⟩⟩

/-- Go `OmciCC.sendMibUpload`. -/
def sendMibUpload (SerializeLayers : SerializeLayers) (oo : OmciCC) (timeout : Int)
    (highPrio : Bool) : Outcome CallResult :=
  let request := SerializableLayer.MibUploadRequest .OnuDataClassID
  let tid := (GetNextTid oo highPrio).1
  let oo := (GetNextTid oo highPrio).2
  match serialize SerializeLayers .MibUploadRequestType request tid with
  | .error err => .returned ⟨some err, oo, []⟩
  | .ok pkt =>
    let oo := { oo with uploadSequNo := 0, uploadNoOfCmds := 0 }
    match oo.pOnuDeviceEntry with
    | none => .panicked
    | some entry =>
      match entry.pMibUploadFsm with
      | none => .panicked
      | some fsm =>
        Send oo pkt timeout 0 highPrio ⟨tid, ⟨fsm.commChan, some .receiveOmciResponse⟩⟩

/-- Go `OmciCC.sendMibUploadNext`. -/
def sendMibUploadNext (SerializeLayers : SerializeLayers) (oo : OmciCC) (timeout : Int)
    (highPrio : Bool) : Outcome CallResult :=
  let request := SerializableLayer.MibUploadNextRequest .OnuDataClassID oo.uploadSequNo
  let tid := (GetNextTid oo highPrio).1
  let oo := (GetNextTid oo highPrio).2
  match serialize SerializeLayers .MibUploadNextRequestType request tid with
  | .error err => .returned ⟨some err, oo, []⟩
  | .ok pkt =>
    let oo := { oo with uploadSequNo := (oo.uploadSequNo + 1) % 65536 }
    match oo.pOnuDeviceEntry with
    | none => .panicked
    | some entry =>
      match entry.pMibUploadFsm with
      | none => .panicked
      | some fsm =>
        Send oo pkt timeout 0 highPrio ⟨tid, ⟨fsm.commChan, some .receiveOmciResponse⟩⟩

/-- One call after another: the second is made on the state the first left if
the first returned nil; the events are joined. -/
def thenCall (first : Outcome CallResult) (next : OmciCC → Outcome CallResult) :
    Outcome CallResult :=
  match first with
  | .returned ⟨none, oo, ev⟩ =>
    match next oo with
    | .returned r => .returned ⟨r.err, r.oo, ev ++ r.events⟩
    | .panicked => .panicked
    | .blocked => .blocked
  | other => other

/-- A MIB upload: `sendMibUpload` followed by `n` calls of `sendMibUploadNext`,
no response received in between. -/
def mibUploadRun (SerializeLayers : SerializeLayers) (timeout : Int) (highPrio : Bool)
    (oo : OmciCC) : Nat → Outcome CallResult
  | 0 => sendMibUpload SerializeLayers oo timeout highPrio
  | n + 1 =>
    thenCall (mibUploadRun SerializeLayers timeout highPrio oo n)
      fun oo => sendMibUploadNext SerializeLayers oo timeout highPrio

/-- The message type and request layer of request `k` of a MIB upload: the
upload request first, then the upload-next requests numbered from 0. -/
def uploadRequest : Nat → OmciMsgType × SerializableLayer
  | 0 => (.MibUploadRequestType, .MibUploadRequest .OnuDataClassID)
  | k + 1 => (.MibUploadNextRequestType, .MibUploadNextRequest .OnuDataClassID (k % 65536))

/-- The frame of request `k` of a high-priority MIB upload started with the
high-priority counter at `h`. -/
def uploadFrame (SerializeLayers : SerializeLayers) (h k : Nat) : Except String (List Nat) :=
  serialize SerializeLayers (uploadRequest k).1 (uploadRequest k).2 (highAt h k)

/-- The descriptor request `k` of such an upload leaves in the TX queue. -/
def uploadDescriptor (SerializeLayers : SerializeLayers) (timeout : Int) (h k : Nat) :
    omciTransferStructure :=
  ⟨match uploadFrame SerializeLayers h k with
    | .ok pkt => pkt
    | .error _ => [], timeout, 0, true⟩

/-! ## Parameter blocks of the create builders -/

/-- Modelled from the spec: the type `OnuUniPort`, declared in a file of the
repository that is not among the sources; the builders read its `macBpNo`
(converted with `uint16(...)`, passed as the 8-bit `PortNum`), its `entityId`
(a `uint16`, added to a `uint16` constant) and its `portType` (converted with
`uint8(...)`, compared with `UniVEIP`). -/
structure OnuUniPort where
  macBpNo : Nat
  entityId : Nat
  portType : Nat
  deriving DecidableEq, Repr

/-- The values a UNI port can hold: `macBpNo` and `portType` fit 8 bits,
`entityId` fits 16 bits. -/
def OnuUniPort.wellTyped (p : OnuUniPort) : Prop :=
  p.macBpNo < 256 ∧ p.entityId < 65536 ∧ p.portType < 256

instance (p : OnuUniPort) : Decidable p.wellTyped := by
  unfold OnuUniPort.wellTyped; infer_instance

/-- Go `me.ParamData`: the entity id and the attribute map, as a list of
name and value. -/
structure ParamData where
  EntityID : Nat
  Attributes : List (String × Nat)
  deriving DecidableEq, Repr

/-- The `meParams` built by `OmciCC.sendCreateMBServiceProfile`. -/
def sendCreateMBServiceProfile.meParams (a_pUniPort : OnuUniPort) : ParamData :=
  let instID := (macBridgeServiceProfileEID + a_pUniPort.macBpNo % 65536) % 65536
  { EntityID := instID
    Attributes := [("Priority", 0x8000), ("MaxAge", 20 * 256), ("HelloTime", 2 * 256),
      ("ForwardDelay", 15 * 256)] }

/-- The `meParams` built by `OmciCC.sendCreateMBPConfigData`. -/
def sendCreateMBPConfigData.meParams (a_pUniPort : OnuUniPort) : ParamData :=
  let instID := (macBridgePortAniEID + a_pUniPort.entityId) % 65536
  { EntityID := instID
    Attributes :=
      [("BridgeIdPointer", (macBridgeServiceProfileEID + a_pUniPort.macBpNo % 65536) % 65536),
       ("PortNum", a_pUniPort.macBpNo),
       ("TpType", a_pUniPort.portType % 256),
       ("TpPointer", a_pUniPort.entityId)] }

/-- The `meParams` built by `OmciCC.sendCreateEVTOConfigData`; `UniVEIP` is the
port-type constant of that name, declared outside the sources. -/
def sendCreateEVTOConfigData.meParams (UniVEIP : Nat) (a_pUniPort : OnuUniPort) : ParamData :=
  let instID := (macBridgeServiceProfileEID + a_pUniPort.macBpNo % 65536) % 65536
  let assType := if a_pUniPort.portType = UniVEIP then 10 else 2
  { EntityID := instID
    Attributes := [("AssociationType", assType), ("AssociatedMePointer", a_pUniPort.entityId)] }

/-! ## Catalog builders -/

/-- The constructors of the ME library the builders call (`me.NewGalEthernetProfile`
and so on; `definition` is `me.LoadManagedEntityDefinition` for a class). -/
inductive MeKind where
  | GalEthernetProfile
  | Onu2G
  | MacBridgeServiceProfile
  | MacBridgePortConfigurationData
  | ExtendedVlanTaggingOperationConfigurationData
  | OnuG
  | UniG
  | VirtualEthernetInterfacePoint
  | definition (classID : ClassID)
  deriving DecidableEq, Repr

/-- An instance `*me.ManagedEntity` handed out by the ME library. -/
structure ManagedEntity where
  handle : Nat
  deriving DecidableEq, Repr

/-- The ME library: a constructor applied to a parameter block gives an
instance, or an error (`omciErr.GetError() != nil`). -/
abbrev NewManagedEntity := MeKind → ParamData → Except String ManagedEntity

/-- The codec call `omci.EncodeFrame(meInstance, msgType, omci.TransactionID(tid))`,
the flag telling whether `omci.AddDefaults(true)` is passed. -/
abbrev EncodeFrame :=
  ManagedEntity → OmciMsgType → Nat → Bool → Except String (OmciLayer × SerializableLayer)

/-- What a catalog builder leaves behind: the returned instance (`none` is
nil), the state and the events. -/
structure BuildResult where
  meInstance : Option ManagedEntity
  oo : OmciCC
  events : List Event

/-- The value of `(*oo.pOnuDeviceEntry).pMibUploadFsm.commChan`, `none` when a
pointer on the way is nil. -/
def mibUploadChan (oo : OmciCC) : Option Nat :=
  match oo.pOnuDeviceEntry with
  | none => none
  | some entry =>
    match entry.pMibUploadFsm with
    | none => none
    | some fsm => some fsm.commChan

/-- The value of `(*oo.pOnuDeviceEntry).pMibDownloadFsm.commChan`, `none` when a
pointer on the way is nil. -/
def mibDownloadChan (oo : OmciCC) : Option Nat :=
  match oo.pOnuDeviceEntry with
  | none => none
  | some entry =>
    match entry.pMibDownloadFsm with
    | none => none
    | some fsm => some fsm.commChan

/-- The body the catalog builders share, from the call of the ME constructor
on: instantiate, encode, serialize, build the callback pair (the channel
expression is evaluated here, and faults when it is `none`), `Send`, and return
the instance unless a step failed. `oo` is the state after `GetNextTid`, `tid`
the TCID it handed out. -/
def sendMeRequest (NewME : NewManagedEntity) (EncodeFrame : EncodeFrame)
    (SerializeLayers : SerializeLayers) (oo : OmciCC) (tid : Nat) (kind : MeKind)
    (meParams : ParamData) (msgType : OmciMsgType) (addDefaults : Bool)
    (respChan : Option Nat) (timeout : Int) (highPrio : Bool) : Outcome BuildResult :=
  match NewME kind meParams with
  | .error _ => .returned ⟨none, oo, []⟩
  | .ok meInstance =>
    match EncodeFrame meInstance msgType tid addDefaults with
    | .error _ => .returned ⟨none, oo, []⟩
    | .ok (omciLayer, msgLayer) =>
      match serializeOmciLayer SerializeLayers omciLayer msgLayer with
      | .error _ => .returned ⟨none, oo, []⟩
      | .ok pkt =>
        match respChan with
        | none => .panicked
        | some cbRespChannel =>
          match Send oo pkt timeout 0 highPrio
              ⟨tid, ⟨cbRespChannel, some .receiveOmciResponse⟩⟩ with
          | .returned r =>
            if r.err ≠ none then .returned ⟨none, r.oo, r.events⟩
            else .returned ⟨some meInstance, r.oo, r.events⟩
          | .panicked => .panicked
          | .blocked => .blocked

/-- Go `OmciCC.sendCreateGalEthernetProfile`. -/
def sendCreateGalEthernetProfile (NewME : NewManagedEntity) (EncodeFrame : EncodeFrame)
    (SerializeLayers : SerializeLayers) (oo : OmciCC) (timeout : Int) (highPrio : Bool) :
    Outcome BuildResult :=
  let tid := (GetNextTid oo highPrio).1
  let oo := (GetNextTid oo highPrio).2
  let meParams : ParamData :=
    { EntityID := galEthernetEID
      Attributes := [("MaximumGemPayloadSize", maxGemPayloadSize)] }
  sendMeRequest NewME EncodeFrame SerializeLayers oo tid .GalEthernetProfile meParams
    .CreateRequestType false (mibDownloadChan oo) timeout highPrio

/-- Go `OmciCC.sendSetOnu2g`. -/
def sendSetOnu2g (NewME : NewManagedEntity) (EncodeFrame : EncodeFrame)
    (SerializeLayers : SerializeLayers) (oo : OmciCC) (timeout : Int) (highPrio : Bool) :
    Outcome BuildResult :=
  let tid := (GetNextTid oo highPrio).1
  let oo := (GetNextTid oo highPrio).2
  let meParams : ParamData :=
    { EntityID := 0
      Attributes := [("CurrentConnectivityMode", connectivityModeValue)] }
  sendMeRequest NewME EncodeFrame SerializeLayers oo tid .Onu2G meParams
    .SetRequestType false (mibDownloadChan oo) timeout highPrio

/-- Go `OmciCC.sendCreateMBServiceProfile`. -/
def sendCreateMBServiceProfile (NewME : NewManagedEntity) (EncodeFrame : EncodeFrame)
    (SerializeLayers : SerializeLayers) (oo : OmciCC) (a_pUniPort : OnuUniPort)
    (timeout : Int) (highPrio : Bool) : Outcome BuildResult :=
  let tid := (GetNextTid oo highPrio).1
  let oo := (GetNextTid oo highPrio).2
  sendMeRequest NewME EncodeFrame SerializeLayers oo tid .MacBridgeServiceProfile
    (sendCreateMBServiceProfile.meParams a_pUniPort)
    .CreateRequestType true (mibDownloadChan oo) timeout highPrio

/-- Go `OmciCC.sendCreateMBPConfigData`. -/
def sendCreateMBPConfigData (NewME : NewManagedEntity) (EncodeFrame : EncodeFrame)
    (SerializeLayers : SerializeLayers) (oo : OmciCC) (a_pUniPort : OnuUniPort)
    (timeout : Int) (highPrio : Bool) : Outcome BuildResult :=
  let tid := (GetNextTid oo highPrio).1
  let oo := (GetNextTid oo highPrio).2
  sendMeRequest NewME EncodeFrame SerializeLayers oo tid .MacBridgePortConfigurationData
    (sendCreateMBPConfigData.meParams a_pUniPort)
    .CreateRequestType true (mibDownloadChan oo) timeout highPrio

/-- Go `OmciCC.sendCreateEVTOConfigData`; `UniVEIP` is the port-type constant. -/
def sendCreateEVTOConfigData (UniVEIP : Nat) (NewME : NewManagedEntity)
    (EncodeFrame : EncodeFrame) (SerializeLayers : SerializeLayers) (oo : OmciCC)
    (a_pUniPort : OnuUniPort) (timeout : Int) (highPrio : Bool) : Outcome BuildResult :=
  let tid := (GetNextTid oo highPrio).1
  let oo := (GetNextTid oo highPrio).2
  sendMeRequest NewME EncodeFrame SerializeLayers oo tid
    .ExtendedVlanTaggingOperationConfigurationData
    (sendCreateEVTOConfigData.meParams UniVEIP a_pUniPort)
    .CreateRequestType false (mibDownloadChan oo) timeout highPrio

/-- Go `OmciCC.sendSetOnuGLS`. -/
def sendSetOnuGLS (NewME : NewManagedEntity) (EncodeFrame : EncodeFrame)
    (SerializeLayers : SerializeLayers) (oo : OmciCC) (timeout : Int) (highPrio : Bool)
    (requestedAttributes : List (String × Nat)) (rxChan : Nat) : Outcome BuildResult :=
  let tid := (GetNextTid oo highPrio).1
  let oo := (GetNextTid oo highPrio).2
  let meParams : ParamData := { EntityID := 0, Attributes := requestedAttributes }
  sendMeRequest NewME EncodeFrame SerializeLayers oo tid .OnuG meParams
    .SetRequestType false (some rxChan) timeout highPrio

/-- Go `OmciCC.sendSetUniGLS`. -/
def sendSetUniGLS (NewME : NewManagedEntity) (EncodeFrame : EncodeFrame)
    (SerializeLayers : SerializeLayers) (oo : OmciCC) (aInstNo : Nat) (timeout : Int)
    (highPrio : Bool) (requestedAttributes : List (String × Nat)) (rxChan : Nat) :
    Outcome BuildResult :=
  let tid := (GetNextTid oo highPrio).1
  let oo := (GetNextTid oo highPrio).2
  let meParams : ParamData := { EntityID := aInstNo, Attributes := requestedAttributes }
  sendMeRequest NewME EncodeFrame SerializeLayers oo tid .UniG meParams
    .SetRequestType false (some rxChan) timeout highPrio

/-- Go `OmciCC.sendSetVeipLS`. -/
def sendSetVeipLS (NewME : NewManagedEntity) (EncodeFrame : EncodeFrame)
    (SerializeLayers : SerializeLayers) (oo : OmciCC) (aInstNo : Nat) (timeout : Int)
    (highPrio : Bool) (requestedAttributes : List (String × Nat)) (rxChan : Nat) :
    Outcome BuildResult :=
  let tid := (GetNextTid oo highPrio).1
  let oo := (GetNextTid oo highPrio).2
  let meParams : ParamData := { EntityID := aInstNo, Attributes := requestedAttributes }
  sendMeRequest NewME EncodeFrame SerializeLayers oo tid .VirtualEthernetInterfacePoint
    meParams .SetRequestType false (some rxChan) timeout highPrio

/-- Go `OmciCC.sendGetMe`. -/
def sendGetMe (NewME : NewManagedEntity) (EncodeFrame : EncodeFrame)
    (SerializeLayers : SerializeLayers) (oo : OmciCC) (classID : ClassID) (entityID : Nat)
    (requestedAttributes : List (String × Nat)) (timeout : Int) (highPrio : Bool) :
    Outcome BuildResult :=
  let tid := (GetNextTid oo highPrio).1
  let oo := (GetNextTid oo highPrio).2
  let meParams : ParamData := { EntityID := entityID, Attributes := requestedAttributes }
  sendMeRequest NewME EncodeFrame SerializeLayers oo tid (.definition classID) meParams
    .GetRequestType false (mibUploadChan oo) timeout highPrio

/-- A call of one of the catalog builders, with the arguments that are its own. -/
inductive CatalogBuilder where
  | createGalEthernetProfile
  | setOnu2g
  | createMBServiceProfile (a_pUniPort : OnuUniPort)
  | createMBPConfigData (a_pUniPort : OnuUniPort)
  | createEVTOConfigData (a_pUniPort : OnuUniPort)
  | setOnuGLS (requestedAttributes : List (String × Nat)) (rxChan : Nat)
  | setUniGLS (aInstNo : Nat) (requestedAttributes : List (String × Nat)) (rxChan : Nat)
  | setVeipLS (aInstNo : Nat) (requestedAttributes : List (String × Nat)) (rxChan : Nat)
  | getMe (classID : ClassID) (entityID : Nat) (requestedAttributes : List (String × Nat))

/-- The call made. -/
def CatalogBuilder.run (UniVEIP : Nat) (NewME : NewManagedEntity) (EncodeFrame : EncodeFrame)
    (SerializeLayers : SerializeLayers) (oo : OmciCC) (timeout : Int) (highPrio : Bool) :
    CatalogBuilder → Outcome BuildResult
  | .createGalEthernetProfile =>
    sendCreateGalEthernetProfile NewME EncodeFrame SerializeLayers oo timeout highPrio
  | .setOnu2g => sendSetOnu2g NewME EncodeFrame SerializeLayers oo timeout highPrio
  | .createMBServiceProfile p =>
    sendCreateMBServiceProfile NewME EncodeFrame SerializeLayers oo p timeout highPrio
  | .createMBPConfigData p =>
    sendCreateMBPConfigData NewME EncodeFrame SerializeLayers oo p timeout highPrio
  | .createEVTOConfigData p =>
    sendCreateEVTOConfigData UniVEIP NewME EncodeFrame SerializeLayers oo p timeout highPrio
  | .setOnuGLS attrs rxChan =>
    sendSetOnuGLS NewME EncodeFrame SerializeLayers oo timeout highPrio attrs rxChan
  | .setUniGLS aInstNo attrs rxChan =>
    sendSetUniGLS NewME EncodeFrame SerializeLayers oo aInstNo timeout highPrio attrs rxChan
  | .setVeipLS aInstNo attrs rxChan =>
    sendSetVeipLS NewME EncodeFrame SerializeLayers oo aInstNo timeout highPrio attrs rxChan
  | .getMe classID entityID attrs =>
    sendGetMe NewME EncodeFrame SerializeLayers oo classID entityID attrs timeout highPrio

/-- The ME constructor a builder calls. -/
def CatalogBuilder.kind : CatalogBuilder → MeKind
  | .createGalEthernetProfile => .GalEthernetProfile
  | .setOnu2g => .Onu2G
  | .createMBServiceProfile _ => .MacBridgeServiceProfile
  | .createMBPConfigData _ => .MacBridgePortConfigurationData
  | .createEVTOConfigData _ => .ExtendedVlanTaggingOperationConfigurationData
  | .setOnuGLS _ _ => .OnuG
  | .setUniGLS _ _ _ => .UniG
  | .setVeipLS _ _ _ => .VirtualEthernetInterfacePoint
  | .getMe classID _ _ => .definition classID

/-- The parameter block a builder passes to the ME constructor. -/
def CatalogBuilder.meParams (UniVEIP : Nat) : CatalogBuilder → ParamData
  | .createGalEthernetProfile =>
    { EntityID := galEthernetEID, Attributes := [("MaximumGemPayloadSize", maxGemPayloadSize)] }
  | .setOnu2g =>
    { EntityID := 0, Attributes := [("CurrentConnectivityMode", connectivityModeValue)] }
  | .createMBServiceProfile p => sendCreateMBServiceProfile.meParams p
  | .createMBPConfigData p => sendCreateMBPConfigData.meParams p
  | .createEVTOConfigData p => sendCreateEVTOConfigData.meParams UniVEIP p
  | .setOnuGLS attrs _ => { EntityID := 0, Attributes := attrs }
  | .setUniGLS aInstNo attrs _ => { EntityID := aInstNo, Attributes := attrs }
  | .setVeipLS aInstNo attrs _ => { EntityID := aInstNo, Attributes := attrs }
  | .getMe _ entityID attrs => { EntityID := entityID, Attributes := attrs }

/-- The message type a builder encodes. -/
def CatalogBuilder.msgType : CatalogBuilder → OmciMsgType
  | .createGalEthernetProfile => .CreateRequestType
  | .setOnu2g => .SetRequestType
  | .createMBServiceProfile _ => .CreateRequestType
  | .createMBPConfigData _ => .CreateRequestType
  | .createEVTOConfigData _ => .CreateRequestType
  | .setOnuGLS _ _ => .SetRequestType
  | .setUniGLS _ _ _ => .SetRequestType
  | .setVeipLS _ _ _ => .SetRequestType
  | .getMe _ _ _ => .GetRequestType

/-- Whether a builder passes `omci.AddDefaults(true)` to the encoder. -/
def CatalogBuilder.addDefaults : CatalogBuilder → Bool
  | .createMBServiceProfile _ => true
  | .createMBPConfigData _ => true
  | _ => false

/-- The response channel a builder registers, `none` when reading it faults. -/
def CatalogBuilder.respChan (oo : OmciCC) : CatalogBuilder → Option Nat
  | .setOnuGLS _ rxChan => some rxChan
  | .setUniGLS _ _ rxChan => some rxChan
  | .setVeipLS _ _ rxChan => some rxChan
  | .getMe _ _ _ => mibUploadChan oo
  | _ => mibDownloadChan oo

/-- ME instantiation, frame encoding and serialization all succeed for the
given constructor, parameter block, message type, option and TCID. -/
def buildsFrame (NewME : NewManagedEntity) (EncodeFrame : EncodeFrame)
    (SerializeLayers : SerializeLayers) (kind : MeKind) (meParams : ParamData)
    (msgType : OmciMsgType) (addDefaults : Bool) (tid : Nat) : Prop :=
  ∃ meInstance omciLayer msgLayer pkt,
    NewME kind meParams = .ok meInstance ∧
    EncodeFrame meInstance msgType tid addDefaults = .ok (omciLayer, msgLayer) ∧
    serializeOmciLayer SerializeLayers omciLayer msgLayer = .ok pkt

/-! ## Fixtures for the examples -/

/-- A codec for the examples: it reads the header of a frame (TCID in bytes 0
and 1, message type in byte 2, device identifier in byte 3) and takes bytes 8
onwards as payload. -/
def headerCodec (rxMsg : List Nat) : Option Packet :=
  some ⟨rxMsg, some (.omci ⟨rxMsg.getD 0 0 * 256 + rxMsg.getD 1 0, rxMsg.getD 2 0,
    rxMsg.getD 3 0, rxMsg.drop 8⟩)⟩

/-- A 44-byte baseline frame with the given TCID and message type, device
identifier 0x0A, zero contents and trailer length 40. -/
def baselineFrame (tcid messageType : Nat) : List Nat :=
  [tcid / 256 % 256, tcid % 256, messageType, 0x0A] ++ List.replicate 38 0 ++ [0x00, 0x28]

/-- A channel with one callback registered. -/
def withCallback (oo : OmciCC) (tcid : Nat) (e : CallbackPairEntry) : OmciCC :=
  { oo with rxSchedulerMap := Function.update oo.rxSchedulerMap tcid (some e) }

/-- A device handler for the examples. -/
def sampleHandler : DeviceHandler :=
  ⟨"olt-1", "brcm_openomci_onu", "openolt", "olt-1"⟩

/-- A fresh channel with a handler attached and two descriptors queued. -/
def twoQueued : OmciCC :=
  { NewOmciCC none "onu-1" (some sampleHandler) 0 0 with
    txQueue := [⟨[0x80, 0x00], 10, 0, true⟩, ⟨[0x00, 0x01], 10, 0, false⟩] }

/-- A core proxy that finds the device on every call. -/
def deviceFound : Nat → String → String → Option Nat × Option String :=
  fun _ _ _ => (some 1, none)

/-- A core proxy whose every call fails. -/
def deviceLookupFails : Nat → String → String → Option Nat × Option String :=
  fun _ _ _ => (none, some "device not found")

/-- A transport that accepts the first frame of a drain and refuses the second. -/
def secondSendFails : Nat → List Nat → Option String :=
  fun n _ => if n = 1 then some "transport down" else none

/-- An ONU device entry with both state machines, for the examples. -/
def sampleEntry : OnuDeviceEntry :=
  ⟨some ⟨7⟩, some ⟨8⟩⟩

/-- A serializer for the examples: the frame is the TCID in two bytes. -/
def tcidSerializer : SerializeLayers :=
  fun _ omciLayer _ => .ok [omciLayer.TransactionID / 256 % 256, omciLayer.TransactionID % 256]

/-- A fresh channel with device entry and handler attached. -/
def freshAttached : OmciCC :=
  NewOmciCC (some sampleEntry) "onu-1" (some sampleHandler) 0 0

/-- An ME library for the examples: every constructor hands out instance 1. -/
def sampleNewME : NewManagedEntity :=
  fun _ _ => .ok ⟨1⟩

/-- An encoder for the examples: the header carries the TCID and message type. -/
def sampleEncodeFrame : EncodeFrame :=
  fun _ msgType tid _ => .ok (⟨tid, msgType⟩, .encoded 0)

/-- An encoder that rejects every instance. -/
def failingEncodeFrame : EncodeFrame :=
  fun _ _ _ _ => .error "encode failed"

/-! ## TID allocation: ranges -/

theorem GetNextTid_fst (oo : OmciCC) (p : Bool) :
    (GetNextTid oo p).1 = if p then oo.hpTid else oo.tid := by
  cases p <;> simp [GetNextTid]

theorem GetNextTid_low_tid (oo : OmciCC) (h : 1 ≤ oo.tid ∧ oo.tid ≤ 0x7FFF) :
    (GetNextTid oo false).2.tid = if oo.tid = 0x7FFF then 1 else oo.tid + 1 := by
  simp only [GetNextTid, Bool.false_eq_true, if_false]
  split_ifs <;> omega

theorem GetNextTid_low_hpTid (oo : OmciCC) : (GetNextTid oo false).2.hpTid = oo.hpTid := by
  simp [GetNextTid]

theorem GetNextTid_high_hpTid (oo : OmciCC) (h : 0x8000 ≤ oo.hpTid ∧ oo.hpTid ≤ 0xFFFF) :
    (GetNextTid oo true).2.hpTid = if oo.hpTid = 0xFFFF then 0x8000 else oo.hpTid + 1 := by
  simp only [GetNextTid, if_true]
  split_ifs <;> omega

theorem GetNextTid_high_tid (oo : OmciCC) : (GetNextTid oo true).2.tid = oo.tid := by
  simp [GetNextTid]

theorem TidsInRange_GetNextTid (oo : OmciCC) (p : Bool) (h : TidsInRange oo) :
    TidsInRange (GetNextTid oo p).2 := by
  obtain ⟨hl, hh⟩ := h
  cases p
  · refine ⟨?_, ?_⟩
    · rw [GetNextTid_low_tid oo hl]; split_ifs <;> omega
    · rw [GetNextTid_low_hpTid]; exact hh
  · refine ⟨?_, ?_⟩
    · rw [GetNextTid_high_tid]; exact hl
    · rw [GetNextTid_high_hpTid oo hh]; split_ifs <;> omega

theorem TidsInRange_NewOmciCC (e : Option OnuDeviceEntry) (d : String)
    (h : Option DeviceHandler) (c a : Nat) : TidsInRange (NewOmciCC e d h c a) := by
  simp [TidsInRange, NewOmciCC]

theorem TidsInRange_allocTids (flags : List Bool) :
    ∀ oo : OmciCC, TidsInRange oo → TidsInRange (allocTids oo flags).2 := by
  induction flags with
  | nil => intro oo h; exact h
  | cons p ps ih =>
    intro oo h
    exact ih _ (TidsInRange_GetNextTid oo p h)

theorem highBit_eq (t : Nat) : highBit t = decide (0x8000 ≤ t % 0x10000) := by
  unfold highBit
  rw [Nat.testBit_to_div_mod]
  congr 1
  apply propext
  constructor <;> intro h <;> omega

theorem allocTids_in_range (flags : List Bool) :
    ∀ oo : OmciCC, TidsInRange oo →
      List.Forall₂ (fun p t => InPriorityRange p t ∧ t ≠ 0 ∧ highBit t = p)
        flags (allocTids oo flags).1 := by
  induction flags with
  | nil => intro oo _; exact List.Forall₂.nil
  | cons p ps ih =>
    intro oo h
    refine List.Forall₂.cons ?_ (ih _ (TidsInRange_GetNextTid oo p h))
    obtain ⟨hl, hh⟩ := h
    rw [GetNextTid_fst, highBit_eq]
    cases p
    · simp only [InPriorityRange, Bool.false_eq_true, if_false]
      refine ⟨hl, by omega, ?_⟩
      simp; omega
    · simp only [InPriorityRange, if_true]
      refine ⟨hh, by omega, ?_⟩
      simp; omega

/-- C1: starting from the state built by `NewOmciCC`, along every finite
sequence of `GetNextTid` calls with arbitrary priority flags, a value returned
for a low-priority call lies in [0x0001, 0x7FFF] and one returned for a
high-priority call lies in [0x8000, 0xFFFF]; no returned value is 0, and bit 15
of a returned value is set exactly for the high-priority calls. -/
theorem C1_tids_in_priority_range (e : Option OnuDeviceEntry) (d : String)
    (h : Option DeviceHandler) (c a : Nat) (flags : List Bool) :
    List.Forall₂
      (fun highPriority t =>
        (if highPriority then 0x8000 ≤ t ∧ t ≤ 0xFFFF else 0x0001 ≤ t ∧ t ≤ 0x7FFF) ∧
        t ≠ 0 ∧ t.testBit 15 = highPriority)
      flags (allocTids (NewOmciCC e d h c a) flags).1 :=
  allocTids_in_range flags _ (TidsInRange_NewOmciCC e d h c a)

/-- C2: with the low-priority counter in [0x0001, 0x7FFF], `GetNextTid(false)`
returns the counter and stores counter + 1, except that 0x7FFF is followed by
0x0001; 0x8000 is neither returned nor stored; from 0x7FFE three calls return
0x7FFE, 0x7FFF, 0x0001. -/
theorem C2_low_priority_step (oo : OmciCC) (h : 0x0001 ≤ oo.tid ∧ oo.tid ≤ 0x7FFF) :
    (GetNextTid oo false).1 = oo.tid ∧
    (GetNextTid oo false).2.tid = (if oo.tid = 0x7FFF then 0x0001 else oo.tid + 1) ∧
    (GetNextTid oo false).1 ≠ 0x8000 ∧ (GetNextTid oo false).2.tid ≠ 0x8000 ∧
    (0x0001 ≤ (GetNextTid oo false).2.tid ∧ (GetNextTid oo false).2.tid ≤ 0x7FFF) ∧
    (oo.tid = 0x7FFE →
      (allocTids oo [false, false, false]).1 = [0x7FFE, 0x7FFF, 0x0001]) := by
  have h1 := GetNextTid_low_tid oo h
  refine ⟨by simp [GetNextTid], h1, ?_, ?_, ?_, ?_⟩
  · simp [GetNextTid]; omega
  · rw [h1]; split_ifs <;> omega
  · rw [h1]; split_ifs <;> omega
  · intro h2
    simp [allocTids, GetNextTid, h2]

/-- C3: with the high-priority counter in [0x8000, 0xFFFF], `GetNextTid(true)`
returns the counter and stores counter + 1, except that from 0xFFFF the 16-bit
increment gives 0 and 0x8000 is stored; so 0xFFFF is followed by 0x8000. -/
theorem C3_high_priority_step (oo : OmciCC) (h : 0x8000 ≤ oo.hpTid ∧ oo.hpTid ≤ 0xFFFF) :
    (GetNextTid oo true).1 = oo.hpTid ∧
    (GetNextTid oo true).2.hpTid = (if oo.hpTid = 0xFFFF then 0x8000 else oo.hpTid + 1) ∧
    (0x8000 ≤ (GetNextTid oo true).2.hpTid ∧ (GetNextTid oo true).2.hpTid ≤ 0xFFFF) ∧
    (oo.hpTid = 0xFFFF →
      (oo.hpTid + 1) % 65536 = 0 ∧ (allocTids oo [true, true]).1 = [0xFFFF, 0x8000]) := by
  have h1 := GetNextTid_high_hpTid oo h
  refine ⟨by simp [GetNextTid], h1, ?_, ?_⟩
  · rw [h1]; split_ifs <;> omega
  · intro h2
    simp [allocTids, GetNextTid, h2]

/-- Witness for C2: the counter two steps before the wrap. -/
theorem C2_low_priority_step_witness :
    (0x0001 ≤ ({ NewOmciCC none "onu-1" none 0 0 with tid := 0x7FFE } : OmciCC).tid ∧
      ({ NewOmciCC none "onu-1" none 0 0 with tid := 0x7FFE } : OmciCC).tid ≤ 0x7FFF) ∧
    (allocTids { NewOmciCC none "onu-1" none 0 0 with tid := 0x7FFE }
      [false, false, false]).1 = [0x7FFE, 0x7FFF, 0x0001] :=
  ⟨by decide,
    (C2_low_priority_step { NewOmciCC none "onu-1" none 0 0 with tid := 0x7FFE }
      (by decide)).2.2.2.2.2 rfl⟩

/-- Witness for C3: the counter at the top of its range. -/
theorem C3_high_priority_step_witness :
    (0x8000 ≤ ({ NewOmciCC none "onu-1" none 0 0 with hpTid := 0xFFFF } : OmciCC).hpTid ∧
      ({ NewOmciCC none "onu-1" none 0 0 with hpTid := 0xFFFF } : OmciCC).hpTid ≤ 0xFFFF) ∧
    (allocTids { NewOmciCC none "onu-1" none 0 0 with hpTid := 0xFFFF }
      [true, true]).1 = [0xFFFF, 0x8000] :=
  ⟨by decide,
    ((C3_high_priority_step { NewOmciCC none "onu-1" none 0 0 with hpTid := 0xFFFF }
      (by decide)).2.2.2 rfl).2⟩

/-! ## TID allocation: period -/

theorem TidsInRange_of_reachable (oo : OmciCC) (h : ReachableTids oo) : TidsInRange oo := by
  obtain ⟨e, d, dh, c, a, flags, h1, h2⟩ := h
  have := TidsInRange_allocTids flags _ (TidsInRange_NewOmciCC e d dh c a)
  unfold TidsInRange at this ⊢
  rw [h1, h2] at this
  exact this

theorem consecutive_low (k : Nat) :
    ∀ oo : OmciCC, (1 ≤ oo.tid ∧ oo.tid ≤ 0x7FFF) →
      consecutiveTids oo false k = (List.range k).map (lowAt oo.tid) ∧
      (afterTids oo false k).tid = lowAt oo.tid k ∧
      (afterTids oo false k).hpTid = oo.hpTid := by
  induction k with
  | zero =>
    intro oo h
    simp only [consecutiveTids, afterTids, List.replicate, allocTids, List.range_zero,
      List.map_nil, lowAt, true_and, and_true]
    omega
  | succ k ih =>
    intro oo h
    have hs := GetNextTid_low_tid oo h
    have hr : 1 ≤ (GetNextTid oo false).2.tid ∧ (GetNextTid oo false).2.tid ≤ 0x7FFF := by
      rw [hs]; split_ifs <;> omega
    obtain ⟨i1, i2, i3⟩ := ih (GetNextTid oo false).2 hr
    have hshift : ∀ n, lowAt (GetNextTid oo false).2.tid n = lowAt oo.tid (n + 1) := by
      intro n
      rw [hs]
      unfold lowAt
      split_ifs <;> omega
    simp only [consecutiveTids, afterTids, List.replicate, allocTids] at i1 i2 i3 ⊢
    refine ⟨?_, ?_, ?_⟩
    · rw [i1, List.range_succ_eq_map, List.map_cons, List.map_map, GetNextTid_fst]
      simp only [Bool.false_eq_true, if_false]
      have h0 : lowAt oo.tid 0 = oo.tid := by unfold lowAt; omega
      rw [h0]
      refine congrArg (List.cons oo.tid) (List.map_congr_left ?_)
      intro n _
      rw [Function.comp_apply]
      exact hshift n
    · rw [i2, hshift]
    · rw [i3, GetNextTid_low_hpTid]

theorem consecutive_high (k : Nat) :
    ∀ oo : OmciCC, (0x8000 ≤ oo.hpTid ∧ oo.hpTid ≤ 0xFFFF) →
      consecutiveTids oo true k = (List.range k).map (highAt oo.hpTid) ∧
      (afterTids oo true k).hpTid = highAt oo.hpTid k ∧
      (afterTids oo true k).tid = oo.tid := by
  induction k with
  | zero =>
    intro oo h
    simp only [consecutiveTids, afterTids, List.replicate, allocTids, List.range_zero,
      List.map_nil, highAt, true_and, and_true]
    omega
  | succ k ih =>
    intro oo h
    have hs := GetNextTid_high_hpTid oo h
    have hr : 0x8000 ≤ (GetNextTid oo true).2.hpTid ∧ (GetNextTid oo true).2.hpTid ≤ 0xFFFF := by
      rw [hs]; split_ifs <;> omega
    obtain ⟨i1, i2, i3⟩ := ih (GetNextTid oo true).2 hr
    have hshift : ∀ n, highAt (GetNextTid oo true).2.hpTid n = highAt oo.hpTid (n + 1) := by
      intro n
      rw [hs]
      unfold highAt
      split_ifs <;> omega
    simp only [consecutiveTids, afterTids, List.replicate, allocTids] at i1 i2 i3 ⊢
    refine ⟨?_, ?_, ?_⟩
    · rw [i1, List.range_succ_eq_map, List.map_cons, List.map_map, GetNextTid_fst]
      simp only [if_true]
      have h0 : highAt oo.hpTid 0 = oo.hpTid := by unfold highAt; omega
      rw [h0]
      refine congrArg (List.cons oo.hpTid) (List.map_congr_left ?_)
      intro n _
      rw [Function.comp_apply]
      exact hshift n
    · rw [i2, hshift]
    · rw [i3, GetNextTid_high_tid]

theorem getElem?_map_range (f : Nat → Nat) (n i t : Nat)
    (h : ((List.range n).map f)[i]? = some t) : i < n ∧ f i = t := by
  rw [List.getElem?_map] at h
  by_cases hi : i < n
  · rw [List.getElem?_range hi] at h
    exact ⟨hi, by simpa using h⟩
  · rw [List.getElem?_eq_none (by simpa using hi)] at h
    simp at h

/-- C4: from a reachable allocator state, `k ≤ 0x7FFF` consecutive
low-priority calls and `k ≤ 0x8000` consecutive high-priority calls return
pairwise distinct TCIDs; the call made after 0x7FFF low-priority (0x8000
high-priority) calls returns the same TCID as the first one; and two calls of
a run of one priority return the same TCID only if they are at least 0x7FFF
(0x8000) calls apart. -/
theorem C4_tids_distinct_within_period (oo : OmciCC) (hr : ReachableTids oo) :
    (∀ k, k ≤ 0x7FFF → (consecutiveTids oo false k).Nodup) ∧
    (∀ k, k ≤ 0x8000 → (consecutiveTids oo true k).Nodup) ∧
    (GetNextTid (afterTids oo false 0x7FFF) false).1 = (GetNextTid oo false).1 ∧
    (GetNextTid (afterTids oo true 0x8000) true).1 = (GetNextTid oo true).1 ∧
    (∀ n i j t, i < j → (consecutiveTids oo false n)[i]? = some t →
      (consecutiveTids oo false n)[j]? = some t → 0x7FFF ≤ j - i) ∧
    (∀ n i j t, i < j → (consecutiveTids oo true n)[i]? = some t →
      (consecutiveTids oo true n)[j]? = some t → 0x8000 ≤ j - i) := by
  obtain ⟨hl, hh⟩ := TidsInRange_of_reachable oo hr
  refine ⟨?_, ?_, ?_, ?_, ?_, ?_⟩
  · intro k hk
    rw [(consecutive_low k oo hl).1]
    refine List.Nodup.map_on ?_ (List.nodup_range k)
    intro x hx y hy hxy
    rw [List.mem_range] at hx hy
    unfold lowAt at hxy
    omega
  · intro k hk
    rw [(consecutive_high k oo hh).1]
    refine List.Nodup.map_on ?_ (List.nodup_range k)
    intro x hx y hy hxy
    rw [List.mem_range] at hx hy
    unfold highAt at hxy
    omega
  · rw [GetNextTid_fst, GetNextTid_fst]
    simp only [Bool.false_eq_true, if_false]
    rw [(consecutive_low 0x7FFF oo hl).2.1]
    unfold lowAt
    omega
  · rw [GetNextTid_fst, GetNextTid_fst]
    simp only [if_true]
    rw [(consecutive_high 0x8000 oo hh).2.1]
    unfold highAt
    omega
  · intro n i j t hij hi hj
    rw [(consecutive_low n oo hl).1] at hi hj
    obtain ⟨_, h1⟩ := getElem?_map_range _ _ _ _ hi
    obtain ⟨_, h2⟩ := getElem?_map_range _ _ _ _ hj
    unfold lowAt at h1 h2
    omega
  · intro n i j t hij hi hj
    rw [(consecutive_high n oo hh).1] at hi hj
    obtain ⟨_, h1⟩ := getElem?_map_range _ _ _ _ hi
    obtain ⟨_, h2⟩ := getElem?_map_range _ _ _ _ hj
    unfold highAt at h1 h2
    omega

/-- Witness for C4: the freshly constructed channel, three calls. -/
theorem C4_tids_distinct_within_period_witness :
    ReachableTids (NewOmciCC none "onu-1" none 0 0) ∧
    (consecutiveTids (NewOmciCC none "onu-1" none 0 0) false 3).Nodup ∧
    (consecutiveTids (NewOmciCC none "onu-1" none 0 0) true 3).Nodup :=
  ⟨⟨none, "onu-1", none, 0, 0, [], rfl, rfl⟩,
    (C4_tids_distinct_within_period (NewOmciCC none "onu-1" none 0 0)
      ⟨none, "onu-1", none, 0, 0, [], rfl, rfl⟩).1 3 (by decide),
    (C4_tids_distinct_within_period (NewOmciCC none "onu-1" none 0 0)
      ⟨none, "onu-1", none, 0, 0, [], rfl, rfl⟩).2.1 3 (by decide)⟩

/-! ## Receive path: length check and trailer repair -/

theorem ReceiveMessage_short (NewPacket : List Nat → Option Packet) (oo : OmciCC)
    (rxMsg : List Nat) (h : rxMsg.length < 44) :
    ReceiveMessage NewPacket oo rxMsg =
      ⟨some "RxOmciMessage to small for BaseFormat", rxMsg, oo, []⟩ := by
  unfold ReceiveMessage
  rw [if_neg (by omega)]

theorem ReceiveMessage_rxMsg (NewPacket : List Nat → Option Packet) (oo : OmciCC)
    (rxMsg : List Nat) (h : 44 ≤ rxMsg.length) :
    (ReceiveMessage NewPacket oo rxMsg).rxMsg = repairTrailer rxMsg := by
  unfold ReceiveMessage repairTrailer
  rw [if_pos h]
  simp only []
  repeat' split
  all_goals rfl

theorem length_putTrailerLen (rxMsg : List Nat) (v : Nat) :
    (putTrailerLen rxMsg v).length = rxMsg.length := by
  simp [putTrailerLen]

theorem getElem?_putTrailerLen_other (rxMsg : List Nat) (v i : Nat) (h1 : i ≠ 42)
    (h2 : i ≠ 43) : (putTrailerLen rxMsg v)[i]? = rxMsg[i]? := by
  unfold putTrailerLen
  rw [List.getElem?_set_ne (Ne.symm h2), List.getElem?_set_ne (Ne.symm h1)]

theorem getElem?_putTrailerLen_trailer (rxMsg : List Nat) (h : 44 ≤ rxMsg.length) :
    (putTrailerLen rxMsg 40)[42]? = some 0x00 ∧ (putTrailerLen rxMsg 40)[43]? = some 0x28 := by
  unfold putTrailerLen
  constructor
  · rw [List.getElem?_set_ne (by decide), List.getElem?_set_eq_of_lt _ (by omega)]
  · rw [List.getElem?_set_eq_of_lt _ (by simp; omega)]

theorem trailer_of_trailerLen (rxMsg : List Nat) (h : 44 ≤ rxMsg.length)
    (h40 : trailerLen rxMsg = 40) : rxMsg[42]? = some 0x00 ∧ rxMsg[43]? = some 0x28 := by
  unfold trailerLen at h40
  have h42 : rxMsg[42]? = some (rxMsg.getD 42 0) := by
    rw [List.getD_eq_getElem?_getD, List.getElem?_eq_getElem (by omega)]; rfl
  have h43 : rxMsg[43]? = some (rxMsg.getD 43 0) := by
    rw [List.getD_eq_getElem?_getD, List.getElem?_eq_getElem (by omega)]; rfl
  rw [h42, h43]
  constructor
  · congr 1; omega
  · congr 1; omega

/-- C6: a buffer shorter than 44 bytes is rejected with an error and left as it
was; for a buffer of at least 44 bytes, after `ReceiveMessage` bytes 42 and 43
are 0x00 and 0x28, the length and every other byte are as before, and a buffer
whose trailer field is 40 already is not modified. -/
theorem C6_trailer_repair (NewPacket : List Nat → Option Packet) (oo : OmciCC)
    (rxMsg : List Nat) :
    (rxMsg.length < 44 →
      (ReceiveMessage NewPacket oo rxMsg).err ≠ none ∧
      (ReceiveMessage NewPacket oo rxMsg).rxMsg = rxMsg) ∧
    (44 ≤ rxMsg.length →
      (ReceiveMessage NewPacket oo rxMsg).rxMsg[42]? = some 0x00 ∧
      (ReceiveMessage NewPacket oo rxMsg).rxMsg[43]? = some 0x28 ∧
      (ReceiveMessage NewPacket oo rxMsg).rxMsg.length = rxMsg.length ∧
      (∀ i, i ≠ 42 → i ≠ 43 → (ReceiveMessage NewPacket oo rxMsg).rxMsg[i]? = rxMsg[i]?) ∧
      (trailerLen rxMsg = 40 → (ReceiveMessage NewPacket oo rxMsg).rxMsg = rxMsg)) := by
  constructor
  · intro h
    rw [ReceiveMessage_short NewPacket oo rxMsg h]
    exact ⟨by simp, rfl⟩
  · intro h
    rw [ReceiveMessage_rxMsg NewPacket oo rxMsg h]
    unfold repairTrailer
    by_cases h40 : trailerLen rxMsg = 40
    · rw [if_neg (by simpa using h40)]
      obtain ⟨a, b⟩ := trailer_of_trailerLen rxMsg h h40
      exact ⟨a, b, rfl, fun _ _ _ => rfl, fun _ => rfl⟩
    · rw [if_pos h40]
      obtain ⟨a, b⟩ := getElem?_putTrailerLen_trailer rxMsg h
      exact ⟨a, b, length_putTrailerLen rxMsg 40,
        fun i h1 h2 => getElem?_putTrailerLen_other rxMsg 40 i h1 h2,
        fun h' => absurd h' h40⟩

/-- Witness for C6: a 44-byte frame whose trailer field reads 0 (scenario S4). -/
theorem C6_trailer_repair_witness :
    44 ≤ ((baselineFrame 0x8000 MibResetResponseType).set 43 0).length ∧
    (ReceiveMessage headerCodec (NewOmciCC none "onu-1" none 0 0)
      ((baselineFrame 0x8000 MibResetResponseType).set 43 0)).rxMsg[43]? = some 0x28 :=
  ⟨by decide,
    ((C6_trailer_repair headerCodec (NewOmciCC none "onu-1" none 0 0)
      ((baselineFrame 0x8000 MibResetResponseType).set 43 0)).2 (by decide)).2.1⟩

/-! ## Receive path: classification and dispatch -/

set_option maxRecDepth 100000 in
theorem byte_test (x : Nat) (hx : x < 256) :
    (x &&& (AK ^^^ 0xFF) = 0 ↔ x = 0 ∨ x = AK) ∧ (x &&& AK ≠ 0 → x ≠ 0) := by
  revert x
  decide

theorem land_AK_mod (m : Nat) : m % 256 &&& AK = m &&& AK := by
  have h : m % 256 = m &&& (2 ^ 8 - 1) := (Nat.and_pow_two_sub_one_eq_mod m 8).symm
  rw [h, Nat.land_assoc]
  rfl

/-- The test `byte(omciMsg.MessageType) & ^me.AK == 0` holds for the type bytes
0x00 and 0x20 only. -/
theorem autonomous_test_iff (m : Nat) :
    (m % 256) &&& (AK ^^^ 0xFF) = 0 ↔ m % 256 = 0 ∨ m % 256 = AK :=
  (byte_test (m % 256) (Nat.mod_lt _ (by decide))).1

theorem response_test (m : Nat) (hack : ackSet m) (hcode : m % 256 ≠ AK) :
    ¬ ((m % 256) &&& (AK ^^^ 0xFF) = 0) := by
  rw [autonomous_test_iff]
  have h0 : m % 256 ≠ 0 :=
    (byte_test (m % 256) (Nat.mod_lt _ (by decide))).2 (by rw [land_AK_mod]; exact hack)
  tauto

theorem ReceiveMessage_autonomous (NewPacket : List Nat → Option Packet) (oo : OmciCC)
    (rxMsg : List Nat) (packet : Packet) (omciMsg : OMCI) (hlen : 44 ≤ rxMsg.length)
    (hdec : NewPacket (repairTrailer rxMsg) = some packet)
    (hlayer : packet.omciLayer = some (.omci omciMsg))
    (htest : (omciMsg.MessageType % 256) &&& (AK ^^^ 0xFF) = 0) :
    ReceiveMessage NewPacket oo rxMsg =
      if omciMsg.TransactionID = 0 then
        ⟨(ReceiveOnuMessage oo omciMsg).1, repairTrailer rxMsg, (ReceiveOnuMessage oo omciMsg).2,
          [.onuMessage omciMsg]⟩
      else
        ⟨some "Autonomous Omci Message with TranSCorrId != 0 not acccepted",
          repairTrailer rxMsg, oo, []⟩ := by
  unfold ReceiveMessage
  unfold repairTrailer at hdec ⊢
  rw [if_pos hlen]
  simp only [hdec, hlayer, htest, if_true]

theorem ReceiveMessage_response (NewPacket : List Nat → Option Packet) (oo : OmciCC)
    (rxMsg : List Nat) (packet : Packet) (omciMsg : OMCI) (hlen : 44 ≤ rxMsg.length)
    (hdec : NewPacket (repairTrailer rxMsg) = some packet)
    (hlayer : packet.omciLayer = some (.omci omciMsg))
    (htest : ¬ ((omciMsg.MessageType % 256) &&& (AK ^^^ 0xFF) = 0)) :
    ReceiveMessage NewPacket oo rxMsg =
      match oo.rxSchedulerMap omciMsg.TransactionID with
      | some ⟨cbRespChannel, some cbFunction⟩ =>
        ⟨none, repairTrailer rxMsg,
          { oo with rxSchedulerMap :=
              Function.update oo.rxSchedulerMap omciMsg.TransactionID none },
          [.rxMapLookup omciMsg.TransactionID,
           .goCallback cbFunction omciMsg packet cbRespChannel,
           .rxMapDelete omciMsg.TransactionID]⟩
      | _ =>
        ⟨some "could not find registered response handler tor transCorrId",
          repairTrailer rxMsg, oo, [.rxMapLookup omciMsg.TransactionID]⟩ := by
  unfold ReceiveMessage
  unfold repairTrailer at hdec ⊢
  rw [if_pos hlen]
  simp only [hdec, hlayer, htest, if_false]

theorem repairTrailer_of_trailerLen (rxMsg : List Nat) (h : trailerLen rxMsg = 40) :
    repairTrailer rxMsg = rxMsg := by
  unfold repairTrailer
  rw [if_neg (by simpa using h)]

theorem trailerLen_repairTrailer (rxMsg : List Nat) (h : 44 ≤ rxMsg.length) :
    trailerLen (repairTrailer rxMsg) = 40 := by
  unfold repairTrailer
  by_cases h40 : trailerLen rxMsg = 40
  · rw [if_neg (by simpa using h40)]; exact h40
  · rw [if_pos h40]
    obtain ⟨a, b⟩ := getElem?_putTrailerLen_trailer rxMsg h
    unfold trailerLen
    rw [List.getD_eq_getElem?_getD, List.getD_eq_getElem?_getD, a, b]
    simp

theorem repairTrailer_idem (rxMsg : List Nat) (h : 44 ≤ rxMsg.length) :
    repairTrailer (repairTrailer rxMsg) = repairTrailer rxMsg :=
  repairTrailer_of_trailerLen _ (trailerLen_repairTrailer rxMsg h)

theorem length_repairTrailer (rxMsg : List Nat) :
    (repairTrailer rxMsg).length = rxMsg.length := by
  unfold repairTrailer
  split_ifs
  · exact length_putTrailerLen rxMsg 40
  · rfl

theorem ackClear_test (m : Nat) (hclear : ¬ ackSet m) (hcode : m % 256 ≠ 0) :
    ¬ ((m % 256) &&& (AK ^^^ 0xFF) = 0) := by
  rw [autonomous_test_iff]
  rintro (h | h)
  · exact hcode h
  · apply hclear
    unfold ackSet
    rw [← land_AK_mod, h]
    decide

/-- C5, the code at the failing inputs: an `AlarmNotification` frame
(acknowledge bit clear) with TCID 0 does not reach the ONU-message handler but
is looked up in the RX scheduler map and answered with the "no registered
handler" error; the same frame with a TCID that is registered launches the
stored callback, removes the map entry and returns nil. -/
theorem C5_alarm_notification_taken_as_response :
    ¬ ackSet AlarmNotificationType ∧
    (ReceiveMessage headerCodec (NewOmciCC none "onu-1" none 0 0)
        (baselineFrame 0 AlarmNotificationType)).err =
      some "could not find registered response handler tor transCorrId" ∧
    (ReceiveMessage headerCodec (NewOmciCC none "onu-1" none 0 0)
        (baselineFrame 0 AlarmNotificationType)).events = [.rxMapLookup 0] ∧
    (ReceiveMessage headerCodec
        (withCallback (NewOmciCC none "onu-1" none 0 0) 0x8000 ⟨7, some .receiveOmciResponse⟩)
        (baselineFrame 0x8000 AlarmNotificationType)).err = none ∧
    launched (ReceiveMessage headerCodec
        (withCallback (NewOmciCC none "onu-1" none 0 0) 0x8000 ⟨7, some .receiveOmciResponse⟩)
        (baselineFrame 0x8000 AlarmNotificationType)).events =
      [.goCallback .receiveOmciResponse
        ⟨0x8000, AlarmNotificationType, 0x0A, (baselineFrame 0x8000 AlarmNotificationType).drop 8⟩
        ⟨baselineFrame 0x8000 AlarmNotificationType,
          some (.omci ⟨0x8000, AlarmNotificationType, 0x0A,
            (baselineFrame 0x8000 AlarmNotificationType).drop 8⟩)⟩ 7] ∧
    (withCallback (NewOmciCC none "onu-1" none 0 0) 0x8000
        ⟨7, some .receiveOmciResponse⟩).rxSchedulerMap 0x8000 ≠ none ∧
    (ReceiveMessage headerCodec
        (withCallback (NewOmciCC none "onu-1" none 0 0) 0x8000 ⟨7, some .receiveOmciResponse⟩)
        (baselineFrame 0x8000 AlarmNotificationType)).oo.rxSchedulerMap 0x8000 = none := by
  refine ⟨by decide, rfl, rfl, rfl, rfl, by decide, rfl⟩

/-- C7: for a well-formed response frame whose TCID is registered with a
non-nil handler, `ReceiveMessage` returns nil, launches the stored handler
exactly once with the decoded message, its packet and the stored channel, and
removes exactly the entry of that TCID from the RX scheduler map; fed the same
frame again it returns an error and launches nothing. -/
theorem C7_registered_response (NewPacket : List Nat → Option Packet) (oo : OmciCC)
    (rxMsg : List Nat) (packet : Packet) (omciMsg : OMCI)
    (cbRespChannel : Nat) (cbFunction : CbFunction)
    (hlen : 44 ≤ rxMsg.length)
    (hdec : NewPacket (repairTrailer rxMsg) = some packet)
    (hlayer : packet.omciLayer = some (.omci omciMsg))
    (hresp : isResponseType omciMsg.MessageType)
    (hreg : oo.rxSchedulerMap omciMsg.TransactionID = some ⟨cbRespChannel, some cbFunction⟩) :
    (ReceiveMessage NewPacket oo rxMsg).err = none ∧
    launched (ReceiveMessage NewPacket oo rxMsg).events =
      [.goCallback cbFunction omciMsg packet cbRespChannel] ∧
    (ReceiveMessage NewPacket oo rxMsg).oo.rxSchedulerMap omciMsg.TransactionID = none ∧
    (∀ k, k ≠ omciMsg.TransactionID →
      (ReceiveMessage NewPacket oo rxMsg).oo.rxSchedulerMap k = oo.rxSchedulerMap k) ∧
    (ReceiveMessage NewPacket (ReceiveMessage NewPacket oo rxMsg).oo
      (ReceiveMessage NewPacket oo rxMsg).rxMsg).err ≠ none ∧
    launched (ReceiveMessage NewPacket (ReceiveMessage NewPacket oo rxMsg).oo
      (ReceiveMessage NewPacket oo rxMsg).rxMsg).events = [] := by
  have htest := response_test omciMsg.MessageType hresp.1 hresp.2
  have h1 := ReceiveMessage_response NewPacket oo rxMsg packet omciMsg hlen hdec hlayer htest
  rw [hreg] at h1
  simp only [] at h1
  have hlen2 : 44 ≤ (repairTrailer rxMsg).length := by rw [length_repairTrailer]; exact hlen
  have hdec2 : NewPacket (repairTrailer (repairTrailer rxMsg)) = some packet := by
    rw [repairTrailer_idem rxMsg hlen]; exact hdec
  have h2 := ReceiveMessage_response NewPacket
    { oo with rxSchedulerMap := Function.update oo.rxSchedulerMap omciMsg.TransactionID none }
    (repairTrailer rxMsg) packet omciMsg hlen2 hdec2 hlayer htest
  simp only [Function.update_same] at h2
  rw [h1]
  dsimp only
  rw [h2]
  refine ⟨rfl, ?_, ?_, ?_, ?_, ?_⟩
  · simp [launched]
  · simp
  · intro k hk
    simp [Function.update_noteq hk]
  · simp
  · simp [launched]

/-- Witness for C7: the MIB reset response of scenario S1. -/
theorem C7_registered_response_witness :
    (ReceiveMessage headerCodec
        (withCallback (NewOmciCC none "onu-1" none 0 0) 0x8000 ⟨7, some .receiveOmciResponse⟩)
        (baselineFrame 0x8000 MibResetResponseType)).err = none ∧
    (ReceiveMessage headerCodec
        (withCallback (NewOmciCC none "onu-1" none 0 0) 0x8000 ⟨7, some .receiveOmciResponse⟩)
        (baselineFrame 0x8000 MibResetResponseType)).oo.rxSchedulerMap 0x8000 = none :=
  ⟨(C7_registered_response headerCodec
      (withCallback (NewOmciCC none "onu-1" none 0 0) 0x8000 ⟨7, some .receiveOmciResponse⟩)
      (baselineFrame 0x8000 MibResetResponseType) _ _ 7 .receiveOmciResponse
      (by decide) rfl rfl (by decide) rfl).1,
   (C7_registered_response headerCodec
      (withCallback (NewOmciCC none "onu-1" none 0 0) 0x8000 ⟨7, some .receiveOmciResponse⟩)
      (baselineFrame 0x8000 MibResetResponseType) _ _ 7 .receiveOmciResponse
      (by decide) rfl rfl (by decide) rfl).2.2.1⟩

/-- C8: for a decoded frame, of whatever message type and so for every response
frame, whose TCID has no entry in the RX scheduler map, `ReceiveMessage` returns
an error, launches no stored callback and leaves the map as it was; for a
well-formed response the ONU-message handler is not called either, the only
event is the lookup. -/
theorem C8_unregistered_response (NewPacket : List Nat → Option Packet) (oo : OmciCC)
    (rxMsg : List Nat) (packet : Packet) (omciMsg : OMCI)
    (hlen : 44 ≤ rxMsg.length)
    (hdec : NewPacket (repairTrailer rxMsg) = some packet)
    (hlayer : packet.omciLayer = some (.omci omciMsg))
    (hreg : oo.rxSchedulerMap omciMsg.TransactionID = none) :
    (ReceiveMessage NewPacket oo rxMsg).err ≠ none ∧
    launched (ReceiveMessage NewPacket oo rxMsg).events = [] ∧
    (ReceiveMessage NewPacket oo rxMsg).oo.rxSchedulerMap = oo.rxSchedulerMap ∧
    (isResponseType omciMsg.MessageType →
      (ReceiveMessage NewPacket oo rxMsg).events = [.rxMapLookup omciMsg.TransactionID]) := by
  by_cases htest : (omciMsg.MessageType % 256) &&& (AK ^^^ 0xFF) = 0
  · rw [ReceiveMessage_autonomous NewPacket oo rxMsg packet omciMsg hlen hdec hlayer htest]
    have hno : ¬ isResponseType omciMsg.MessageType :=
      fun h => response_test omciMsg.MessageType h.1 h.2 htest
    split_ifs
    · exact ⟨by simp [ReceiveOnuMessage], by simp [launched], rfl, fun h => absurd h hno⟩
    · exact ⟨by simp, by simp [launched], rfl, fun h => absurd h hno⟩
  · rw [ReceiveMessage_response NewPacket oo rxMsg packet omciMsg hlen hdec hlayer htest, hreg]
    exact ⟨by simp, by simp [launched], rfl, fun _ => rfl⟩

/-- Witness for C8: a response with TCID 0x0042 on the empty map of a fresh
channel (scenario S5); the map stays empty. -/
theorem C8_unregistered_response_witness :
    (ReceiveMessage headerCodec (NewOmciCC none "onu-1" none 0 0)
        (baselineFrame 0x0042 MibResetResponseType)).err ≠ none ∧
    (ReceiveMessage headerCodec (NewOmciCC none "onu-1" none 0 0)
        (baselineFrame 0x0042 MibResetResponseType)).oo.rxSchedulerMap = fun _ => none :=
  ⟨(C8_unregistered_response headerCodec (NewOmciCC none "onu-1" none 0 0)
      (baselineFrame 0x0042 MibResetResponseType) _ _ (by decide) rfl rfl rfl).1,
   (C8_unregistered_response headerCodec (NewOmciCC none "onu-1" none 0 0)
      (baselineFrame 0x0042 MibResetResponseType) _ _ (by decide) rfl rfl rfl).2.2.1⟩

/-! ## Transmit path -/

/-- C9: `Send` returns whenever the TX-queue mutex is free, and when it returns
the RX scheduler map maps `cbKey` to `cbEntry` and agrees with the previous map
on every other key, the TX queue is the previous queue with the one descriptor
`{txFrame, timeout, retry, highPrio}` appended at the tail, and the map store
precedes the enqueue, which precedes the launch of the drain. -/
theorem C9_send_registers_then_enqueues (oo : OmciCC) (txFrame : List Nat)
    (timeout retry : Int) (highPrio : Bool) (receiveCallbackPair : CallbackPair) :
    (oo.mutexTxQueue = false →
      ∃ r, Send oo txFrame timeout retry highPrio receiveCallbackPair = .returned r) ∧
    (∀ r, Send oo txFrame timeout retry highPrio receiveCallbackPair = .returned r →
      r.oo.rxSchedulerMap receiveCallbackPair.cbKey = some receiveCallbackPair.cbEntry ∧
      (∀ k, k ≠ receiveCallbackPair.cbKey → r.oo.rxSchedulerMap k = oo.rxSchedulerMap k) ∧
      r.oo.txQueue = oo.txQueue ++ [⟨txFrame, timeout, retry, highPrio⟩] ∧
      r.events = [.rxMapStore receiveCallbackPair.cbKey receiveCallbackPair.cbEntry,
        .txEnqueue ⟨txFrame, timeout, retry, highPrio⟩, .goSendNextRequest]) := by
  constructor
  · intro hfree
    simp [Send, hfree]
  · intro r hr
    unfold Send at hr
    simp only [] at hr
    split_ifs at hr with hlocked
    cases hr
    refine ⟨by simp, ?_, rfl, rfl⟩
    intro k hk
    simp [Function.update_noteq hk]

/-- Witness for C9: a first `Send` on a fresh channel. -/
theorem C9_send_registers_then_enqueues_witness :
    ∃ r, Send (NewOmciCC none "onu-1" none 0 0) [1, 2, 3] 10 0 true
      ⟨0x8000, ⟨7, some .receiveOmciResponse⟩⟩ = .returned r ∧
      r.oo.txQueue = [⟨[1, 2, 3], 10, 0, true⟩] ∧
      r.oo.rxSchedulerMap 0x8000 = some ⟨7, some .receiveOmciResponse⟩ :=
  ⟨_, rfl,
    ((C9_send_registers_then_enqueues (NewOmciCC none "onu-1" none 0 0) [1, 2, 3] 10 0 true
      ⟨0x8000, ⟨7, some .receiveOmciResponse⟩⟩).2 _ rfl).2.2.1,
    ((C9_send_registers_then_enqueues (NewOmciCC none "onu-1" none 0 0) [1, 2, 3] 10 0 true
      ⟨0x8000, ⟨7, some .receiveOmciResponse⟩⟩).2 _ rfl).1⟩

theorem handedOver_append (a b : List Event) :
    handedOver (a ++ b) = handedOver a ++ handedOver b := by
  simp [handedOver, List.filterMap_append]

theorem transmitted_append (a b : List Event) :
    transmitted (a ++ b) = transmitted a ++ transmitted b := by
  simp [transmitted, List.filterMap_append]

theorem drainLoop_all_ok (GetDevice : Nat → String → String → Option Nat × Option String)
    (SendInterAdapterMessage : Nat → List Nat → Option String) (oo : OmciCC)
    (dh : DeviceHandler) (hdh : oo.pBaseDeviceHandler = some dh) :
    ∀ (q : List omciTransferStructure) (n : Nat) (ev : List Event),
      (∀ i (h : i < q.length),
        (GetDevice (n + i) dh.deviceID oo.deviceID).2 = none ∧
        (GetDevice (n + i) dh.deviceID oo.deviceID).1 ≠ none ∧
        SendInterAdapterMessage (n + i) q[i].txFrame = none) →
      ∃ ev', drainLoop GetDevice SendInterAdapterMessage oo n q ev =
          .returned ⟨none, { oo with txQueue := [], mutexTxQueue := false }, ev ++ ev'⟩ ∧
        handedOver ev' = q.map (·.txFrame) ∧ transmitted ev' = q.map (·.txFrame) := by
  intro q
  induction q with
  | nil =>
    intro n ev _
    exact ⟨[], by simp [drainLoop], rfl, rfl⟩
  | cons d rest ih =>
    intro n ev hok
    obtain ⟨g1, g2, g3⟩ := hok 0 (by simp)
    simp only [Nat.add_zero, List.getElem_cons_zero] at g1 g2 g3
    have hrest : ∀ i (h : i < rest.length),
        (GetDevice (n + 1 + i) dh.deviceID oo.deviceID).2 = none ∧
        (GetDevice (n + 1 + i) dh.deviceID oo.deviceID).1 ≠ none ∧
        SendInterAdapterMessage (n + 1 + i) rest[i].txFrame = none := by
      intro i h
      have := hok (i + 1) (by simp; omega)
      simp only [List.getElem_cons_succ] at this
      rw [show n + 1 + i = n + (i + 1) by omega]
      exact this
    obtain ⟨ev', e1, e2, e3⟩ := ih (n + 1)
      (ev ++ [.getDevice dh.deviceID oo.deviceID (GetDevice n dh.deviceID oo.deviceID).1
          (GetDevice n dh.deviceID oo.deviceID).2] ++
        [.sendInterAdapterMessage d.txFrame dh.DeviceType dh.ProxyAddressType oo.deviceID
          dh.ProxyAddressID (SendInterAdapterMessage n d.txFrame)]) hrest
    refine ⟨[.getDevice dh.deviceID oo.deviceID (GetDevice n dh.deviceID oo.deviceID).1
          (GetDevice n dh.deviceID oo.deviceID).2,
        .sendInterAdapterMessage d.txFrame dh.DeviceType dh.ProxyAddressType oo.deviceID
          dh.ProxyAddressID (SendInterAdapterMessage n d.txFrame)] ++ ev', ?_, ?_, ?_⟩
    · rw [drainLoop, hdh]
      simp only [g1, g2, g3, ne_eq, not_true_eq_false, or_self, if_false] at e1 ⊢
      rw [e1]
      simp [hdh]
    · rw [handedOver_append, e2]
      simp [handedOver]
    · rw [transmitted_append, e3, g3]
      simp [transmitted]

/-- C10: with the TX-queue mutex free and the device handler attached, if every
device lookup of the drain returns a device without error and every transport
send succeeds, `sendNextRequest` returns nil, hands the frames of the queue to
the transport in queue order, each once, and leaves the queue empty. -/
theorem C10_drain_in_enqueue_order
    (GetDevice : Nat → String → String → Option Nat × Option String)
    (SendInterAdapterMessage : Nat → List Nat → Option String) (oo : OmciCC)
    (dh : DeviceHandler) (hfree : oo.mutexTxQueue = false)
    (hdh : oo.pBaseDeviceHandler = some dh)
    (hok : ∀ i (h : i < oo.txQueue.length),
      (GetDevice i dh.deviceID oo.deviceID).2 = none ∧
      (GetDevice i dh.deviceID oo.deviceID).1 ≠ none ∧
      SendInterAdapterMessage i oo.txQueue[i].txFrame = none) :
    ∃ r, sendNextRequest GetDevice SendInterAdapterMessage oo = .returned r ∧
      r.err = none ∧ r.oo.txQueue = [] ∧
      handedOver r.events = oo.txQueue.map (·.txFrame) ∧
      transmitted r.events = oo.txQueue.map (·.txFrame) := by
  obtain ⟨ev', e1, e2, e3⟩ := drainLoop_all_ok GetDevice SendInterAdapterMessage oo dh hdh
    oo.txQueue 0 [] (by simpa using hok)
  refine ⟨⟨none, { oo with txQueue := [], mutexTxQueue := false }, [] ++ ev'⟩,
    ?_, rfl, rfl, ?_, ?_⟩
  · unfold sendNextRequest
    rw [hfree]
    exact e1
  · simpa using e2
  · simpa using e3

/-- Witness for C10: two queued descriptors, a core proxy that always finds the
device and a transport that always accepts. -/
theorem C10_drain_in_enqueue_order_witness :
    ∃ r, sendNextRequest (fun _ _ _ => (some 1, none)) (fun _ _ => none) twoQueued =
        .returned r ∧
      r.err = none ∧ r.oo.txQueue = [] ∧
      handedOver r.events = [[0x80, 0x00], [0x00, 0x01]] ∧
      transmitted r.events = [[0x80, 0x00], [0x00, 0x01]] :=
  C10_drain_in_enqueue_order (fun _ _ _ => (some 1, none)) (fun _ _ => none) twoQueued
    sampleHandler rfl rfl (fun _ _ => ⟨rfl, by simp, rfl⟩)

/-! ## Transmit path: a drain that fails -/

theorem drainLoop_first_failure
    (GetDevice : Nat → String → String → Option Nat × Option String)
    (SendInterAdapterMessage : Nat → List Nat → Option String) (oo : OmciCC)
    (dh : DeviceHandler) (hdh : oo.pBaseDeviceHandler = some dh) :
    ∀ (i : Nat) (q : List omciTransferStructure) (n : Nat) (ev : List Event)
      (hi : i < q.length),
      (∀ j (h : j < i),
        (GetDevice (n + j) dh.deviceID oo.deviceID).2 = none ∧
        (GetDevice (n + j) dh.deviceID oo.deviceID).1 ≠ none ∧
        SendInterAdapterMessage (n + j) q[j].txFrame = none) →
      ((GetDevice (n + i) dh.deviceID oo.deviceID).2 ≠ none ∨
        (GetDevice (n + i) dh.deviceID oo.deviceID).1 = none ∨
        SendInterAdapterMessage (n + i) q[i].txFrame ≠ none) →
      ∃ ev', drainLoop GetDevice SendInterAdapterMessage oo n q ev =
          .returned ⟨
            if (GetDevice (n + i) dh.deviceID oo.deviceID).2 ≠ none ∨
                (GetDevice (n + i) dh.deviceID oo.deviceID).1 = none
              then some "failed to fetch device"
              else SendInterAdapterMessage (n + i) q[i].txFrame,
            { oo with txQueue := q.drop i, mutexTxQueue := true }, ev ++ ev'⟩ ∧
        transmitted ev' = (q.take i).map (·.txFrame) := by
  intro i
  induction i with
  | zero =>
    intro q n ev hi _ hfail
    match q, hi with
    | d :: rest, _ =>
      simp only [Nat.add_zero, List.getElem_cons_zero] at hfail ⊢
      by_cases hl : (GetDevice n dh.deviceID oo.deviceID).2 ≠ none ∨
          (GetDevice n dh.deviceID oo.deviceID).1 = none
      · refine ⟨[.getDevice dh.deviceID oo.deviceID (GetDevice n dh.deviceID oo.deviceID).1
          (GetDevice n dh.deviceID oo.deviceID).2], ?_, by simp [transmitted]⟩
        rw [drainLoop, hdh]
        simp only [if_pos hl, List.drop_zero]
      · have hs : SendInterAdapterMessage n d.txFrame ≠ none := by tauto
        obtain ⟨e, he⟩ := Option.ne_none_iff_exists'.mp hs
        refine ⟨[.getDevice dh.deviceID oo.deviceID (GetDevice n dh.deviceID oo.deviceID).1
            (GetDevice n dh.deviceID oo.deviceID).2,
          .sendInterAdapterMessage d.txFrame dh.DeviceType dh.ProxyAddressType oo.deviceID
            dh.ProxyAddressID (some e)], ?_, by simp [transmitted]⟩
        rw [drainLoop, hdh]
        simp only [if_neg hl, he, List.drop_zero, List.append_assoc, List.singleton_append]
  | succ i ih =>
    intro q n ev hi hbefore hfail
    match q, hi with
    | d :: rest, hi =>
      obtain ⟨g1, g2, g3⟩ := hbefore 0 (by omega)
      simp only [Nat.add_zero, List.getElem_cons_zero] at g1 g2 g3
      have hi' : i < rest.length := by simpa using hi
      have hrest : ∀ j (h : j < i),
          (GetDevice (n + 1 + j) dh.deviceID oo.deviceID).2 = none ∧
          (GetDevice (n + 1 + j) dh.deviceID oo.deviceID).1 ≠ none ∧
          SendInterAdapterMessage (n + 1 + j) rest[j].txFrame = none := by
        intro j h
        have := hbefore (j + 1) (by omega)
        simp only [List.getElem_cons_succ] at this
        rw [show n + 1 + j = n + (j + 1) by omega]
        exact this
      have hfail' : (GetDevice (n + 1 + i) dh.deviceID oo.deviceID).2 ≠ none ∨
          (GetDevice (n + 1 + i) dh.deviceID oo.deviceID).1 = none ∨
          SendInterAdapterMessage (n + 1 + i) rest[i].txFrame ≠ none := by
        simp only [List.getElem_cons_succ] at hfail
        rw [show n + 1 + i = n + (i + 1) by omega]
        exact hfail
      obtain ⟨ev', e1, e2⟩ := ih rest (n + 1)
        (ev ++ [.getDevice dh.deviceID oo.deviceID (GetDevice n dh.deviceID oo.deviceID).1
            (GetDevice n dh.deviceID oo.deviceID).2] ++
          [.sendInterAdapterMessage d.txFrame dh.DeviceType dh.ProxyAddressType oo.deviceID
            dh.ProxyAddressID (SendInterAdapterMessage n d.txFrame)]) hi' hrest hfail'
      refine ⟨[.getDevice dh.deviceID oo.deviceID (GetDevice n dh.deviceID oo.deviceID).1
            (GetDevice n dh.deviceID oo.deviceID).2,
          .sendInterAdapterMessage d.txFrame dh.DeviceType dh.ProxyAddressType oo.deviceID
            dh.ProxyAddressID (SendInterAdapterMessage n d.txFrame)] ++ ev', ?_, ?_⟩
      · rw [drainLoop, hdh]
        simp only [g1, g2, g3, ne_eq, not_true_eq_false, or_self, if_false] at e1 ⊢
        rw [e1]
        simp only [List.getElem_cons_succ, List.drop_succ_cons, show n + (i + 1) = n + 1 + i by omega]
        simp [hdh]
      · rw [transmitted_append, e2, g3]
        simp [transmitted]

/-- C11: with the TX-queue mutex free and the device handler attached, if the
descriptors before position `i` are looked up and sent without failure and the
lookup or the send of the descriptor at position `i` fails, `sendNextRequest`
returns an error (the transport's own error when the send failed, "failed to
fetch device" when the lookup failed), the transport has accepted exactly the
frames before position `i`, in queue order, and the queue afterwards is the old
queue from position `i` on. -/
theorem C11_drain_stops_at_first_failure
    (GetDevice : Nat → String → String → Option Nat × Option String)
    (SendInterAdapterMessage : Nat → List Nat → Option String) (oo : OmciCC)
    (dh : DeviceHandler) (i : Nat) (hfree : oo.mutexTxQueue = false)
    (hdh : oo.pBaseDeviceHandler = some dh) (hi : i < oo.txQueue.length)
    (hbefore : ∀ j (h : j < i),
      (GetDevice j dh.deviceID oo.deviceID).2 = none ∧
      (GetDevice j dh.deviceID oo.deviceID).1 ≠ none ∧
      SendInterAdapterMessage j oo.txQueue[j].txFrame = none)
    (hfail : (GetDevice i dh.deviceID oo.deviceID).2 ≠ none ∨
      (GetDevice i dh.deviceID oo.deviceID).1 = none ∨
      SendInterAdapterMessage i oo.txQueue[i].txFrame ≠ none) :
    ∃ r, sendNextRequest GetDevice SendInterAdapterMessage oo = .returned r ∧
      r.err ≠ none ∧
      (((GetDevice i dh.deviceID oo.deviceID).2 ≠ none ∨
          (GetDevice i dh.deviceID oo.deviceID).1 = none) →
        r.err = some "failed to fetch device") ∧
      (¬ ((GetDevice i dh.deviceID oo.deviceID).2 ≠ none ∨
          (GetDevice i dh.deviceID oo.deviceID).1 = none) →
        r.err = SendInterAdapterMessage i oo.txQueue[i].txFrame) ∧
      transmitted r.events = (oo.txQueue.take i).map (·.txFrame) ∧
      r.oo.txQueue = oo.txQueue.drop i := by
  obtain ⟨ev', e1, e2⟩ := drainLoop_first_failure GetDevice SendInterAdapterMessage oo dh hdh
    i oo.txQueue 0 [] hi (by simpa using hbefore) (by simpa using hfail)
  simp only [Nat.zero_add] at e1
  refine ⟨⟨if (GetDevice i dh.deviceID oo.deviceID).2 ≠ none ∨
        (GetDevice i dh.deviceID oo.deviceID).1 = none
      then some "failed to fetch device"
      else SendInterAdapterMessage i oo.txQueue[i].txFrame,
    { oo with txQueue := oo.txQueue.drop i, mutexTxQueue := true }, [] ++ ev'⟩,
    ?_, ?_, ?_, ?_, ?_, rfl⟩
  · unfold sendNextRequest
    rw [hfree]
    exact e1
  · by_cases hl : (GetDevice i dh.deviceID oo.deviceID).2 ≠ none ∨
        (GetDevice i dh.deviceID oo.deviceID).1 = none
    · simp only [if_pos hl]; simp
    · simp only [if_neg hl]; tauto
  · intro hl; simp only [if_pos hl]
  · intro hl; simp only [if_neg hl]
  · simpa using e2

/-- Witness for C11: two queued descriptors, the transport refuses the second. -/
theorem C11_drain_stops_at_first_failure_witness :
    ∃ r, sendNextRequest deviceFound secondSendFails twoQueued = .returned r ∧
      r.err = some "transport down" ∧
      transmitted r.events = [[0x80, 0x00]] ∧
      r.oo.txQueue = [⟨[0x00, 0x01], 10, 0, false⟩] := by
  obtain ⟨r, h1, _, _, h4, h5, h6⟩ :=
    C11_drain_stops_at_first_failure deviceFound secondSendFails twoQueued sampleHandler 1
      rfl rfl (by decide)
      (fun j h => by
        have hj : j = 0 := by omega
        subst hj
        exact ⟨rfl, by simp [deviceFound], rfl⟩)
      (Or.inr (Or.inr (by simp [secondSendFails])))
  exact ⟨r, h1, h4 (by simp [deviceFound]), h5, h6⟩

/-- C20, the code at the failing input: a drain entered with the mutex free
whose first device lookup fails returns "failed to fetch device" with the
TX-queue mutex still held and the queue untouched; a drain whose second send
fails returns the transport error with the mutex still held; after either, a
`Send` and a further drain wait on the mutex for ever. -/
theorem C20_failed_drain_keeps_mutex :
    twoQueued.mutexTxQueue = false ∧
    (∃ r, sendNextRequest deviceLookupFails secondSendFails twoQueued = .returned r ∧
      r.err = some "failed to fetch device" ∧ r.oo.mutexTxQueue = true ∧
      r.oo.txQueue = twoQueued.txQueue ∧
      Send r.oo [0x00, 0x02] 10 0 false ⟨2, ⟨7, some .receiveOmciResponse⟩⟩ = .blocked ∧
      sendNextRequest deviceFound (fun _ _ => none) r.oo = .blocked) ∧
    (∃ r, sendNextRequest deviceFound secondSendFails twoQueued = .returned r ∧
      r.err = some "transport down" ∧ r.oo.mutexTxQueue = true ∧
      Send r.oo [0x00, 0x02] 10 0 false ⟨2, ⟨7, some .receiveOmciResponse⟩⟩ = .blocked ∧
      sendNextRequest deviceFound (fun _ _ => none) r.oo = .blocked) ∧
    (∃ r, sendNextRequest deviceFound (fun _ _ => none) twoQueued = .returned r ∧
      r.err = none ∧ r.oo.mutexTxQueue = false) :=
  ⟨rfl, ⟨_, rfl, rfl, rfl, rfl, rfl, rfl⟩, ⟨_, rfl, rfl, rfl, rfl, rfl⟩, ⟨_, rfl, rfl, rfl⟩⟩

/-! ## Construction -/

/-- C18: `NewOmciCC` returns an instance with `enabled` and `supportExtMsg`
false, the five counters 0, `tid` 0x0001, `hpTid` 0x8000, `uploadSequNo` and
`uploadNoOfCmds` 0, an empty TX queue, an empty RX scheduler map, and the
ONU device entry, device id, device handler and proxies as passed in. -/
theorem C18_NewOmciCC_initial_state (onu_device_entry : Option OnuDeviceEntry)
    (device_id : String) (device_handler : Option DeviceHandler)
    (core_proxy adapter_proxy : Nat) :
    (NewOmciCC onu_device_entry device_id device_handler core_proxy adapter_proxy).enabled
      = false ∧
    (NewOmciCC onu_device_entry device_id device_handler core_proxy adapter_proxy).supportExtMsg
      = false ∧
    (NewOmciCC onu_device_entry device_id device_handler core_proxy adapter_proxy).txFrames
      = 0 ∧
    (NewOmciCC onu_device_entry device_id device_handler core_proxy adapter_proxy).txOnuFrames
      = 0 ∧
    (NewOmciCC onu_device_entry device_id device_handler core_proxy adapter_proxy).rxFrames
      = 0 ∧
    (NewOmciCC onu_device_entry device_id device_handler core_proxy adapter_proxy).rxOnuFrames
      = 0 ∧
    (NewOmciCC onu_device_entry device_id device_handler core_proxy adapter_proxy).rxOnuDiscards
      = 0 ∧
    (NewOmciCC onu_device_entry device_id device_handler core_proxy adapter_proxy).tid
      = 0x0001 ∧
    (NewOmciCC onu_device_entry device_id device_handler core_proxy adapter_proxy).hpTid
      = 0x8000 ∧
    (NewOmciCC onu_device_entry device_id device_handler core_proxy adapter_proxy).uploadSequNo
      = 0 ∧
    (NewOmciCC onu_device_entry device_id device_handler core_proxy adapter_proxy).uploadNoOfCmds
      = 0 ∧
    (NewOmciCC onu_device_entry device_id device_handler core_proxy adapter_proxy).txQueue
      = [] ∧
    (∀ tcid,
      (NewOmciCC onu_device_entry device_id device_handler core_proxy
        adapter_proxy).rxSchedulerMap tcid = none) ∧
    (NewOmciCC onu_device_entry device_id device_handler core_proxy adapter_proxy).pOnuDeviceEntry
      = onu_device_entry ∧
    (NewOmciCC onu_device_entry device_id device_handler core_proxy adapter_proxy).deviceID
      = device_id ∧
    (NewOmciCC onu_device_entry device_id device_handler core_proxy
      adapter_proxy).pBaseDeviceHandler = device_handler ∧
    (NewOmciCC onu_device_entry device_id device_handler core_proxy adapter_proxy).coreProxy
      = core_proxy ∧
    (NewOmciCC onu_device_entry device_id device_handler core_proxy adapter_proxy).adapterProxy
      = adapter_proxy :=
  ⟨rfl, rfl, rfl, rfl, rfl, rfl, rfl, rfl, rfl, rfl, rfl, rfl, fun _ => rfl, rfl, rfl, rfl,
    rfl, rfl⟩

/-! ## Receive path: the handlers -/

/-- C12 fails on the code: a message of type 0, none of `AlarmNotification`,
`AttributeValueChange` and `TestResult`, leaves `rxOnuDiscards` at its value
instead of adding one. -/
theorem C12_other_type_not_counted :
    (0 ≠ AlarmNotificationType ∧ 0 ≠ AttributeValueChangeType ∧ 0 ≠ TestResultType) ∧
    (ReceiveOnuMessage (NewOmciCC none "onu-1" none 0 0) ⟨0, 0, 0x0A, []⟩).2.rxOnuDiscards =
      (NewOmciCC none "onu-1" none 0 0).rxOnuDiscards ∧
    (ReceiveOnuMessage (NewOmciCC none "onu-1" none 0 0) ⟨0, 0, 0x0A, []⟩).2.rxOnuDiscards ≠
      ((NewOmciCC none "onu-1" none 0 0).rxOnuDiscards + 1) % 4294967296 := by
  decide

/-- C12 as amended: for every message passed to `ReceiveOnuMessage`, whatever
its type, the handler returns the "unimplemented" failure and leaves
`rxOnuDiscards` and the rest of the state unchanged. -/
theorem C12_onu_message_unimplemented (oo : OmciCC) (omciMsg : OMCI) :
    (ReceiveOnuMessage oo omciMsg).1 = some "ReceiveOnuMessage unimplemented" ∧
    (ReceiveOnuMessage oo omciMsg).2.rxOnuDiscards = oo.rxOnuDiscards ∧
    (ReceiveOnuMessage oo omciMsg).2 = oo :=
  ⟨rfl, rfl, rfl⟩

/-- C13: without an attached ONU device entry `receiveOmciResponse` returns an
error and sends nothing; with one it makes exactly one send, on the given
channel, of a `Message` of type `OMCI` whose data is the `OmciMessage` with the
given message and packet, and returns nil. -/
theorem C13_receiveOmciResponse (oo : OmciCC) (omciMsg : OMCI) (packet : Packet)
    (respChan : Nat) :
    (oo.pOnuDeviceEntry = none →
      (receiveOmciResponse oo omciMsg packet respChan).1 ≠ none ∧
      (receiveOmciResponse oo omciMsg packet respChan).2 = []) ∧
    (oo.pOnuDeviceEntry ≠ none →
      (receiveOmciResponse oo omciMsg packet respChan).1 = none ∧
      (receiveOmciResponse oo omciMsg packet respChan).2 =
        [(respChan, ⟨.OMCI, .omciMessage ⟨omciMsg, packet⟩⟩)]) := by
  constructor
  · intro h
    simp [receiveOmciResponse, h]
  · intro h
    obtain ⟨e, he⟩ := Option.ne_none_iff_exists'.mp h
    simp [receiveOmciResponse, he]

/-- Witness for C13: a channel with a device entry, response channel 7. -/
theorem C13_receiveOmciResponse_witness :
    (NewOmciCC (some sampleEntry) "onu-1" none 0 0).pOnuDeviceEntry ≠ none ∧
    (receiveOmciResponse (NewOmciCC (some sampleEntry) "onu-1" none 0 0)
      ⟨0x8000, MibResetResponseType, 0x0A, []⟩ ⟨[], none⟩ 7).2 =
      [(7, ⟨.OMCI, .omciMessage ⟨⟨0x8000, MibResetResponseType, 0x0A, []⟩, ⟨[], none⟩⟩⟩)] :=
  ⟨by decide,
    ((C13_receiveOmciResponse (NewOmciCC (some sampleEntry) "onu-1" none 0 0)
      ⟨0x8000, MibResetResponseType, 0x0A, []⟩ ⟨[], none⟩ 7).2 (by decide)).2⟩

/-- C17 fails on the code: a well-formed response whose TCID is registered with
a nil handler is answered with the "no registered handler" error, and the entry
is still in the map afterwards. -/
theorem C17_nil_handler_entry_kept :
    isResponseType MibResetResponseType ∧
    (ReceiveMessage headerCodec (withCallback (NewOmciCC none "onu-1" none 0 0) 0x8000 ⟨7, none⟩)
        (baselineFrame 0x8000 MibResetResponseType)).err =
      some "could not find registered response handler tor transCorrId" ∧
    (ReceiveMessage headerCodec (withCallback (NewOmciCC none "onu-1" none 0 0) 0x8000 ⟨7, none⟩)
        (baselineFrame 0x8000 MibResetResponseType)).oo.rxSchedulerMap 0x8000 =
      some ⟨7, none⟩ ∧
    (ReceiveMessage headerCodec (withCallback (NewOmciCC none "onu-1" none 0 0) 0x8000 ⟨7, none⟩)
        (baselineFrame 0x8000 MibResetResponseType)).oo.rxSchedulerMap 0x8000 ≠ none :=
  ⟨by decide, rfl, rfl, by decide⟩

/-- C17 as amended: for a well-formed response whose TCID is registered with a
nil handler, `ReceiveMessage` reports the "no registered handler" failure; the
entry has been looked up, nothing else happens, and the map afterwards is the
map before, still holding the entry. -/
theorem C17_nil_handler_reported (NewPacket : List Nat → Option Packet) (oo : OmciCC)
    (rxMsg : List Nat) (packet : Packet) (omciMsg : OMCI) (cbRespChannel : Nat)
    (hlen : 44 ≤ rxMsg.length)
    (hdec : NewPacket (repairTrailer rxMsg) = some packet)
    (hlayer : packet.omciLayer = some (.omci omciMsg))
    (hresp : isResponseType omciMsg.MessageType)
    (hreg : oo.rxSchedulerMap omciMsg.TransactionID = some ⟨cbRespChannel, none⟩) :
    (ReceiveMessage NewPacket oo rxMsg).err =
      some "could not find registered response handler tor transCorrId" ∧
    (ReceiveMessage NewPacket oo rxMsg).events = [.rxMapLookup omciMsg.TransactionID] ∧
    (ReceiveMessage NewPacket oo rxMsg).oo.rxSchedulerMap = oo.rxSchedulerMap ∧
    (ReceiveMessage NewPacket oo rxMsg).oo.rxSchedulerMap omciMsg.TransactionID =
      some ⟨cbRespChannel, none⟩ := by
  have htest := response_test omciMsg.MessageType hresp.1 hresp.2
  rw [ReceiveMessage_response NewPacket oo rxMsg packet omciMsg hlen hdec hlayer htest, hreg]
  exact ⟨rfl, rfl, rfl, hreg⟩

/-- Witness for C17 as amended: TCID 0x8000 registered with a nil handler. -/
theorem C17_nil_handler_reported_witness :
    (ReceiveMessage headerCodec (withCallback (NewOmciCC none "onu-1" none 0 0) 0x8000 ⟨7, none⟩)
        (baselineFrame 0x8000 MibResetResponseType)).events = [.rxMapLookup 0x8000] :=
  (C17_nil_handler_reported headerCodec
    (withCallback (NewOmciCC none "onu-1" none 0 0) 0x8000 ⟨7, none⟩)
    (baselineFrame 0x8000 MibResetResponseType) _ _ 7 (by decide) rfl rfl (by decide) rfl).2.1

/-! ## Request builders: MIB reset and upload -/

theorem GetNextTid_frame (oo : OmciCC) (p : Bool) :
    (GetNextTid oo p).2.pOnuDeviceEntry = oo.pOnuDeviceEntry ∧
    (GetNextTid oo p).2.mutexTxQueue = oo.mutexTxQueue ∧
    (GetNextTid oo p).2.txQueue = oo.txQueue ∧
    (GetNextTid oo p).2.rxSchedulerMap = oo.rxSchedulerMap ∧
    (GetNextTid oo p).2.uploadSequNo = oo.uploadSequNo ∧
    (GetNextTid oo p).2.uploadNoOfCmds = oo.uploadNoOfCmds := by
  cases p <;> exact ⟨rfl, rfl, rfl, rfl, rfl, rfl⟩

theorem Send_returned (oo : OmciCC) (txFrame : List Nat) (timeout retry : Int)
    (highPrio : Bool) (pair : CallbackPair) (r : CallResult)
    (h : Send oo txFrame timeout retry highPrio pair = .returned r) :
    oo.mutexTxQueue = false ∧
    r = ⟨none,
      { oo with
        rxSchedulerMap := Function.update oo.rxSchedulerMap pair.cbKey (some pair.cbEntry),
        txQueue := oo.txQueue ++ [⟨txFrame, timeout, retry, highPrio⟩] },
      [.rxMapStore pair.cbKey pair.cbEntry, .txEnqueue ⟨txFrame, timeout, retry, highPrio⟩,
        .goSendNextRequest]⟩ := by
  unfold Send at h
  simp only [] at h
  split_ifs at h with hlocked
  cases h
  exact ⟨by simpa using hlocked, rfl⟩

theorem sendMibUpload_returned (SerializeLayers : SerializeLayers) (oo : OmciCC)
    (timeout : Int) (highPrio : Bool) (r : CallResult)
    (hr : sendMibUpload SerializeLayers oo timeout highPrio = .returned r)
    (he : r.err = none) :
    ∃ pkt entry fsm,
      serialize SerializeLayers .MibUploadRequestType (.MibUploadRequest .OnuDataClassID)
        (GetNextTid oo highPrio).1 = .ok pkt ∧
      oo.pOnuDeviceEntry = some entry ∧ entry.pMibUploadFsm = some fsm ∧
      oo.mutexTxQueue = false ∧
      r.oo = { (GetNextTid oo highPrio).2 with
        uploadSequNo := 0, uploadNoOfCmds := 0,
        rxSchedulerMap := Function.update oo.rxSchedulerMap (GetNextTid oo highPrio).1
          (some ⟨fsm.commChan, some .receiveOmciResponse⟩),
        txQueue := oo.txQueue ++ [⟨pkt, timeout, 0, highPrio⟩] } := by
  obtain ⟨f1, f2, f3, f4, _, _⟩ := GetNextTid_frame oo highPrio
  unfold sendMibUpload at hr
  simp only [] at hr
  cases hs : serialize SerializeLayers .MibUploadRequestType
      (.MibUploadRequest .OnuDataClassID) (GetNextTid oo highPrio).1 with
  | error e =>
    rw [hs] at hr
    simp only [] at hr
    cases hr
    simp at he
  | ok pkt =>
    rw [hs] at hr
    simp only [f1] at hr
    cases hent : oo.pOnuDeviceEntry with
    | none => rw [hent] at hr; simp at hr
    | some entry =>
      rw [hent] at hr
      simp only [] at hr
      cases hfsm : entry.pMibUploadFsm with
      | none => rw [hfsm] at hr; simp at hr
      | some fsm =>
        rw [hfsm] at hr
        simp only [] at hr
        obtain ⟨hm, hres⟩ := Send_returned _ _ _ _ _ _ _ hr
        refine ⟨pkt, entry, fsm, rfl, rfl, hfsm, by simpa [f2] using hm, ?_⟩
        rw [hres]
        simp [f1, f3, f4, hent]

theorem sendMibUploadNext_returned (SerializeLayers : SerializeLayers) (oo : OmciCC)
    (timeout : Int) (highPrio : Bool) (r : CallResult)
    (hr : sendMibUploadNext SerializeLayers oo timeout highPrio = .returned r)
    (he : r.err = none) :
    ∃ pkt entry fsm,
      serialize SerializeLayers .MibUploadNextRequestType
        (.MibUploadNextRequest .OnuDataClassID oo.uploadSequNo)
        (GetNextTid oo highPrio).1 = .ok pkt ∧
      oo.pOnuDeviceEntry = some entry ∧ entry.pMibUploadFsm = some fsm ∧
      oo.mutexTxQueue = false ∧
      r.oo = { (GetNextTid oo highPrio).2 with
        uploadSequNo := (oo.uploadSequNo + 1) % 65536,
        rxSchedulerMap := Function.update oo.rxSchedulerMap (GetNextTid oo highPrio).1
          (some ⟨fsm.commChan, some .receiveOmciResponse⟩),
        txQueue := oo.txQueue ++ [⟨pkt, timeout, 0, highPrio⟩] } := by
  obtain ⟨f1, f2, f3, f4, f5, _⟩ := GetNextTid_frame oo highPrio
  unfold sendMibUploadNext at hr
  simp only [] at hr
  cases hs : serialize SerializeLayers .MibUploadNextRequestType
      (.MibUploadNextRequest .OnuDataClassID oo.uploadSequNo) (GetNextTid oo highPrio).1 with
  | error e =>
    rw [hs] at hr
    simp only [] at hr
    cases hr
    simp at he
  | ok pkt =>
    rw [hs] at hr
    simp only [f1] at hr
    cases hent : oo.pOnuDeviceEntry with
    | none => rw [hent] at hr; simp at hr
    | some entry =>
      rw [hent] at hr
      simp only [] at hr
      cases hfsm : entry.pMibUploadFsm with
      | none => rw [hfsm] at hr; simp at hr
      | some fsm =>
        rw [hfsm] at hr
        simp only [] at hr
        obtain ⟨hm, hres⟩ := Send_returned _ _ _ _ _ _ _ hr
        refine ⟨pkt, entry, fsm, rfl, rfl, hfsm, by simpa [f2] using hm, ?_⟩
        rw [hres]
        simp [f1, f3, f4, f5, hent]

theorem thenCall_returned (first : Outcome CallResult) (next : OmciCC → Outcome CallResult)
    (r : CallResult) (h : thenCall first next = .returned r) (he : r.err = none) :
    ∃ r1 r2, first = .returned r1 ∧ r1.err = none ∧ next r1.oo = .returned r2 ∧
      r2.err = none ∧ r.oo = r2.oo := by
  cases first with
  | panicked => simp [thenCall] at h
  | blocked => simp [thenCall] at h
  | returned r1 =>
    obtain ⟨e1, oo1, ev1⟩ := r1
    cases e1 with
    | some e =>
      simp only [thenCall] at h
      cases h
      simp at he
    | none =>
      simp only [thenCall] at h
      cases h2 : next oo1 with
      | panicked => rw [h2] at h; simp at h
      | blocked => rw [h2] at h; simp at h
      | returned r2 =>
        rw [h2] at h
        simp only [] at h
        cases h
        exact ⟨⟨none, oo1, ev1⟩, r2, rfl, rfl, h2, he, rfl⟩

theorem highAt_zero (h : Nat) (hh : 0x8000 ≤ h ∧ h ≤ 0xFFFF) : highAt h 0 = h := by
  unfold highAt; omega

theorem highAt_range (h n : Nat) : 0x8000 ≤ highAt h n ∧ highAt h n ≤ 0xFFFF := by
  unfold highAt; omega

theorem highAt_step (oo : OmciCC) (h n : Nat) (hh : 0x8000 ≤ h ∧ h ≤ 0xFFFF)
    (ht : oo.hpTid = highAt h n) :
    (GetNextTid oo true).1 = highAt h n ∧ (GetNextTid oo true).2.hpTid = highAt h (n + 1) := by
  have hr : 0x8000 ≤ oo.hpTid ∧ oo.hpTid ≤ 0xFFFF := by rw [ht]; exact highAt_range h n
  refine ⟨by rw [GetNextTid_fst, if_pos rfl, ht], ?_⟩
  rw [GetNextTid_high_hpTid oo hr, ht]
  unfold highAt
  split_ifs <;> omega

/-- The state a high-priority MIB upload of `n` upload-next requests leaves
when every call returned nil. -/
theorem mibUploadRun_returned (SerializeLayers : SerializeLayers) (timeout : Int)
    (oo : OmciCC) (hh : 0x8000 ≤ oo.hpTid ∧ oo.hpTid ≤ 0xFFFF) :
    ∀ (n : Nat) (r : CallResult),
      mibUploadRun SerializeLayers timeout true oo n = .returned r → r.err = none →
      ∃ entry fsm, oo.pOnuDeviceEntry = some entry ∧ entry.pMibUploadFsm = some fsm ∧
        r.oo.pOnuDeviceEntry = oo.pOnuDeviceEntry ∧
        r.oo.hpTid = highAt oo.hpTid (n + 1) ∧
        r.oo.uploadSequNo = n % 65536 ∧
        r.oo.txQueue = oo.txQueue ++
          (List.range (n + 1)).map (uploadDescriptor SerializeLayers timeout oo.hpTid) ∧
        (∀ k, k ≤ n → ∃ pkt, uploadFrame SerializeLayers oo.hpTid k = .ok pkt) ∧
        (∀ t, r.oo.rxSchedulerMap t =
          if t ∈ (List.range (n + 1)).map (highAt oo.hpTid)
          then some ⟨fsm.commChan, some .receiveOmciResponse⟩
          else oo.rxSchedulerMap t) := by
  intro n
  induction n with
  | zero =>
    intro r hr he
    obtain ⟨pkt, entry, fsm, hs, hent, hfsm, _, hoo⟩ :=
      sendMibUpload_returned SerializeLayers oo timeout true r hr he
    obtain ⟨t1, t2⟩ := highAt_step oo oo.hpTid 0 hh (highAt_zero oo.hpTid hh).symm
    obtain ⟨f1, _, _, _, _, _⟩ := GetNextTid_frame oo true
    have hframe : uploadFrame SerializeLayers oo.hpTid 0 = .ok pkt := by
      show serialize SerializeLayers .MibUploadRequestType (.MibUploadRequest .OnuDataClassID)
        (highAt oo.hpTid 0) = .ok pkt
      rw [← t1]; exact hs
    have hmap : r.oo.rxSchedulerMap = Function.update oo.rxSchedulerMap (highAt oo.hpTid 0)
        (some ⟨fsm.commChan, some .receiveOmciResponse⟩) := by
      rw [hoo, ← t1]
    have hq : r.oo.txQueue = oo.txQueue ++ [⟨pkt, timeout, 0, true⟩] := by rw [hoo]
    have hd : uploadDescriptor SerializeLayers timeout oo.hpTid 0 = ⟨pkt, timeout, 0, true⟩ := by
      simp [uploadDescriptor, hframe]
    refine ⟨entry, fsm, hent, hfsm, ?_, ?_, ?_, ?_, ?_, ?_⟩
    · rw [hoo]; exact f1
    · rw [hoo]; exact t2
    · rw [hoo]
    · rw [hq, show List.range (0 + 1) = [0] from rfl, List.map_cons, List.map_nil, hd]
    · intro k hk
      have : k = 0 := by omega
      subst this
      exact ⟨pkt, hframe⟩
    · intro t
      rw [hmap, show List.range (0 + 1) = [0] from rfl]
      simp only [List.map_cons, List.map_nil, List.mem_singleton]
      by_cases ht : t = highAt oo.hpTid 0
      · rw [if_pos ht, ht, Function.update_same]
      · rw [if_neg ht, Function.update_noteq ht]
  | succ n ih =>
    intro r hr he
    obtain ⟨r1, r2, h1, he1, h2, he2, hoo⟩ := thenCall_returned _ _ r hr he
    obtain ⟨entry, fsm, hent, hfsm, i1, i2, i3, i4, i5, i6⟩ := ih r1 h1 he1
    obtain ⟨pkt, entry', fsm', hs, hent', hfsm', _, hoo2⟩ :=
      sendMibUploadNext_returned SerializeLayers r1.oo timeout true r2 h2 he2
    have hsame : entry' = entry := by
      rw [i1, hent] at hent'
      exact (Option.some.inj hent').symm
    subst hsame
    have hfs : fsm' = fsm := by
      rw [hfsm] at hfsm'
      exact (Option.some.inj hfsm').symm
    subst hfs
    obtain ⟨t1, t2⟩ := highAt_step r1.oo oo.hpTid (n + 1) hh i2
    obtain ⟨f1, _, _, _, _, _⟩ := GetNextTid_frame r1.oo true
    have hframe : uploadFrame SerializeLayers oo.hpTid (n + 1) = .ok pkt := by
      show serialize SerializeLayers .MibUploadNextRequestType
        (.MibUploadNextRequest .OnuDataClassID (n % 65536)) (highAt oo.hpTid (n + 1)) = .ok pkt
      rw [← t1, ← i3]; exact hs
    have hmap : r.oo.rxSchedulerMap = Function.update r1.oo.rxSchedulerMap
        (highAt oo.hpTid (n + 1)) (some ⟨fsm'.commChan, some .receiveOmciResponse⟩) := by
      rw [hoo, hoo2, ← t1]
    have hq : r.oo.txQueue = r1.oo.txQueue ++ [⟨pkt, timeout, 0, true⟩] := by rw [hoo, hoo2]
    have hd : uploadDescriptor SerializeLayers timeout oo.hpTid (n + 1) =
        ⟨pkt, timeout, 0, true⟩ := by
      simp [uploadDescriptor, hframe]
    have hseq : r.oo.uploadSequNo = (r1.oo.uploadSequNo + 1) % 65536 := by rw [hoo, hoo2]
    refine ⟨entry', fsm', hent, hfsm, ?_, ?_, ?_, ?_, ?_, ?_⟩
    · rw [hoo, hoo2]; exact f1.trans i1
    · rw [hoo, hoo2]; exact t2
    · rw [hseq, i3]
      omega
    · rw [hq, i4, List.range_succ (n := n + 1), List.map_append, List.append_assoc,
        List.map_cons, List.map_nil, hd]
    · intro k hk
      by_cases hkn : k ≤ n
      · exact i5 k hkn
      · have : k = n + 1 := by omega
        subst this
        exact ⟨pkt, hframe⟩
    · intro t
      rw [hmap, List.range_succ (n := n + 1), List.map_append]
      simp only [List.mem_append, List.map_cons, List.map_nil, List.mem_singleton]
      by_cases ht : t = highAt oo.hpTid (n + 1)
      · rw [if_pos (Or.inr ht), ht, Function.update_same]
      · rw [Function.update_noteq ht, i6 t]
        by_cases hm : t ∈ (List.range (n + 1)).map (highAt oo.hpTid)
        · rw [if_pos hm, if_pos (Or.inl hm)]
        · rw [if_neg hm, if_neg (by tauto)]

/-- C14: a `sendMibUpload` that returns nil leaves `uploadSequNo` and
`uploadNoOfCmds` at 0; a `sendMibUploadNext` that returns nil has queued the
frame serialized from the request whose command sequence number is the
`uploadSequNo` held before the call, and leaves `uploadSequNo` one higher
modulo 2^16. After `sendMibUpload` and `n` calls of `sendMibUploadNext`, all
high-priority and all returning nil, `uploadSequNo` is `n` modulo 2^16; the
queue has grown by the `n + 1` frames, in order, request `k + 1` carrying the
sequence number `k` modulo 2^16 and request `k` the `k`-th TCID handed out by
the high-priority allocator (the counter plus `k` while it does not wrap);
each of these TCIDs is mapped to the MIB-upload channel and
`receiveOmciResponse`, every other key is as before, and for `n < 0x8000` the
`n + 1` TCIDs are pairwise distinct. -/
theorem C14_mib_upload_sequence (SerializeLayers : SerializeLayers) (oo : OmciCC)
    (timeout : Int) (highPrio : Bool) :
    (∀ r, sendMibUpload SerializeLayers oo timeout highPrio = .returned r → r.err = none →
      r.oo.uploadSequNo = 0 ∧ r.oo.uploadNoOfCmds = 0) ∧
    (∀ r, sendMibUploadNext SerializeLayers oo timeout highPrio = .returned r →
      r.err = none →
      ∃ pkt, serialize SerializeLayers .MibUploadNextRequestType
          (.MibUploadNextRequest .OnuDataClassID oo.uploadSequNo)
          (GetNextTid oo highPrio).1 = .ok pkt ∧
        r.oo.txQueue = oo.txQueue ++ [⟨pkt, timeout, 0, highPrio⟩] ∧
        r.oo.uploadSequNo = (oo.uploadSequNo + 1) % 65536) ∧
    (∀ n r, 0x8000 ≤ oo.hpTid → oo.hpTid ≤ 0xFFFF →
      mibUploadRun SerializeLayers timeout true oo n = .returned r → r.err = none →
      r.oo.uploadSequNo = n % 65536 ∧
      (n < 65536 → r.oo.uploadSequNo = n) ∧
      r.oo.txQueue = oo.txQueue ++
        (List.range (n + 1)).map (uploadDescriptor SerializeLayers timeout oo.hpTid) ∧
      (∃ pkt, serialize SerializeLayers .MibUploadRequestType
          (.MibUploadRequest .OnuDataClassID) (highAt oo.hpTid 0) = .ok pkt ∧
        r.oo.txQueue[oo.txQueue.length]? = some ⟨pkt, timeout, 0, true⟩) ∧
      (∀ k, k < n → ∃ pkt, serialize SerializeLayers .MibUploadNextRequestType
          (.MibUploadNextRequest .OnuDataClassID (k % 65536))
          (highAt oo.hpTid (k + 1)) = .ok pkt ∧
        r.oo.txQueue[oo.txQueue.length + (k + 1)]? = some ⟨pkt, timeout, 0, true⟩) ∧
      (∀ k, k ≤ n → oo.hpTid + k ≤ 0xFFFF → highAt oo.hpTid k = oo.hpTid + k) ∧
      (∃ entry fsm, oo.pOnuDeviceEntry = some entry ∧ entry.pMibUploadFsm = some fsm ∧
        ∀ k, k ≤ n → r.oo.rxSchedulerMap (highAt oo.hpTid k) =
          some ⟨fsm.commChan, some .receiveOmciResponse⟩) ∧
      (∀ t, (∀ k, k ≤ n → highAt oo.hpTid k ≠ t) →
        r.oo.rxSchedulerMap t = oo.rxSchedulerMap t) ∧
      (n < 0x8000 → ((List.range (n + 1)).map (highAt oo.hpTid)).Nodup)) := by
  refine ⟨?_, ?_, ?_⟩
  · intro r hr he
    obtain ⟨_, _, _, _, _, _, _, hoo⟩ :=
      sendMibUpload_returned SerializeLayers oo timeout highPrio r hr he
    rw [hoo]
    exact ⟨rfl, rfl⟩
  · intro r hr he
    obtain ⟨pkt, _, _, hs, _, _, _, hoo⟩ :=
      sendMibUploadNext_returned SerializeLayers oo timeout highPrio r hr he
    rw [hoo]
    exact ⟨pkt, hs, rfl, rfl⟩
  · intro n r h1 h2 hr he
    obtain ⟨entry, fsm, hent, hfsm, _, _, i3, i4, i5, i6⟩ :=
      mibUploadRun_returned SerializeLayers timeout oo ⟨h1, h2⟩ n r hr he
    have hget : ∀ k, k ≤ n → ∀ pkt, uploadFrame SerializeLayers oo.hpTid k = .ok pkt →
        r.oo.txQueue[oo.txQueue.length + k]? = some ⟨pkt, timeout, 0, true⟩ := by
      intro k hk pkt hp
      rw [i4, List.getElem?_append_right (by omega), Nat.add_sub_cancel_left,
        List.getElem?_map, List.getElem?_range (by omega)]
      simp [uploadDescriptor, hp]
    have hmem : ∀ t, t ∈ (List.range (n + 1)).map (highAt oo.hpTid) ↔
        ∃ k, k ≤ n ∧ highAt oo.hpTid k = t := by
      intro t
      simp only [List.mem_map, List.mem_range]
      constructor
      · rintro ⟨k, hk, rfl⟩; exact ⟨k, by omega, rfl⟩
      · rintro ⟨k, hk, rfl⟩; exact ⟨k, by omega, rfl⟩
    refine ⟨i3, ?_, i4, ?_, ?_, ?_, ?_, ?_, ?_⟩
    · intro hn
      rw [i3, Nat.mod_eq_of_lt hn]
    · obtain ⟨pkt, hp⟩ := i5 0 (by omega)
      exact ⟨pkt, hp, by simpa using hget 0 (by omega) pkt hp⟩
    · intro k hk
      obtain ⟨pkt, hp⟩ := i5 (k + 1) (by omega)
      exact ⟨pkt, hp, hget (k + 1) (by omega) pkt hp⟩
    · intro k _ hk
      unfold highAt
      omega
    · refine ⟨entry, fsm, hent, hfsm, ?_⟩
      intro k hk
      rw [i6, if_pos ((hmem _).2 ⟨k, hk, rfl⟩)]
    · intro t ht
      rw [i6, if_neg]
      rw [hmem]
      rintro ⟨k, hk, hkt⟩
      exact ht k hk hkt
    · intro hn
      refine List.Nodup.map_on ?_ (List.nodup_range (n + 1))
      intro x hx y hy hxy
      rw [List.mem_range] at hx hy
      unfold highAt at hxy
      omega

/-- Witness for C14: scenario S2 on a fresh channel, MIB upload and three
upload-next requests. -/
theorem C14_mib_upload_sequence_witness :
    ∃ r, mibUploadRun tcidSerializer 10 true freshAttached 3 = .returned r ∧
      r.err = none ∧ r.oo.uploadSequNo = 3 ∧
      r.oo.txQueue.map (·.txFrame) = [[0x80, 0x00], [0x80, 0x01], [0x80, 0x02], [0x80, 0x03]] :=
  ⟨_, rfl, rfl,
    ((C14_mib_upload_sequence tcidSerializer freshAttached 10 true).2.2 3 _
      (by decide) (by decide) rfl rfl).2.1 (by decide),
    rfl⟩

/-- C15: with the ONU device entry and its MIB-upload state machine attached,
the TX-queue mutex free and the serialization of the MIB reset request
succeeding, `sendMibReset` returns nil; its TCID is the one `GetNextTid`
hands out for the priority, the RX scheduler map maps that TCID to the
MIB-upload channel and `receiveOmciResponse` and is unchanged elsewhere, and
the TX queue has grown by the one descriptor of the serialized frame, the
timeout, 0 retries and the priority. On a channel fresh from `NewOmciCC` and
with high priority the TCID is 0x8000 and that entry is the only one. -/
theorem C15_sendMibReset (SerializeLayers : SerializeLayers) (oo : OmciCC) (timeout : Int)
    (highPrio : Bool) (entry : OnuDeviceEntry) (fsm : Fsm) (pkt : List Nat)
    (hent : oo.pOnuDeviceEntry = some entry) (hfsm : entry.pMibUploadFsm = some fsm)
    (hfree : oo.mutexTxQueue = false)
    (hser : serialize SerializeLayers .MibResetRequestType (.MibResetRequest .OnuDataClassID)
      (GetNextTid oo highPrio).1 = .ok pkt) :
    ∃ r, sendMibReset SerializeLayers oo timeout highPrio = .returned r ∧ r.err = none ∧
      r.oo.rxSchedulerMap (GetNextTid oo highPrio).1 =
        some ⟨fsm.commChan, some .receiveOmciResponse⟩ ∧
      (∀ k, k ≠ (GetNextTid oo highPrio).1 → r.oo.rxSchedulerMap k = oo.rxSchedulerMap k) ∧
      r.oo.txQueue = oo.txQueue ++ [⟨pkt, timeout, 0, highPrio⟩] ∧
      r.oo.tid = (GetNextTid oo highPrio).2.tid ∧
      r.oo.hpTid = (GetNextTid oo highPrio).2.hpTid ∧
      r.events =
        [.rxMapStore (GetNextTid oo highPrio).1 ⟨fsm.commChan, some .receiveOmciResponse⟩,
          .txEnqueue ⟨pkt, timeout, 0, highPrio⟩, .goSendNextRequest] ∧
      (∀ d h c a, oo = NewOmciCC (some entry) d h c a → highPrio = true →
        (GetNextTid oo highPrio).1 = 0x8000 ∧
        ∀ k, r.oo.rxSchedulerMap k =
          if k = 0x8000 then some ⟨fsm.commChan, some .receiveOmciResponse⟩ else none) := by
  obtain ⟨f1, f2, f3, f4, _, _⟩ := GetNextTid_frame oo highPrio
  have hlock : (GetNextTid oo highPrio).2.mutexTxQueue = false := f2.trans hfree
  refine ⟨⟨none,
    { (GetNextTid oo highPrio).2 with
      rxSchedulerMap := Function.update oo.rxSchedulerMap (GetNextTid oo highPrio).1
        (some ⟨fsm.commChan, some .receiveOmciResponse⟩),
      txQueue := oo.txQueue ++ [⟨pkt, timeout, 0, highPrio⟩] },
    [.rxMapStore (GetNextTid oo highPrio).1 ⟨fsm.commChan, some .receiveOmciResponse⟩,
      .txEnqueue ⟨pkt, timeout, 0, highPrio⟩, .goSendNextRequest]⟩,
    ?_, rfl, ?_, ?_, rfl, rfl, rfl, rfl, ?_⟩
  · unfold sendMibReset
    simp only [hser, f1, hent, hfsm, Send, hlock, f3, f4]
    simp
  · simp
  · intro k hk
    simp [Function.update_noteq hk]
  · intro d h c a hoo hp
    subst hoo hp
    refine ⟨rfl, ?_⟩
    intro k
    by_cases hk : k = 0x8000
    · subst hk
      simp [GetNextTid, NewOmciCC]
    · rw [if_neg hk]
      simp [GetNextTid, NewOmciCC, Function.update_noteq hk]

/-- Witness for C15: scenario S1, a high-priority MIB reset on a fresh channel. -/
theorem C15_sendMibReset_witness :
    ∃ r, sendMibReset tcidSerializer freshAttached 10 true = .returned r ∧ r.err = none ∧
      r.oo.rxSchedulerMap 0x8000 = some ⟨7, some .receiveOmciResponse⟩ ∧
      r.oo.txQueue = [⟨[0x80, 0x00], 10, 0, true⟩] := by
  obtain ⟨r, h1, h2, h3, _, h5, _⟩ :=
    C15_sendMibReset tcidSerializer freshAttached 10 true sampleEntry ⟨7⟩ [0x80, 0x00]
      rfl rfl rfl rfl
  exact ⟨r, h1, h2, h3, h5⟩

/-- C16, the code at the failing inputs: with no ONU device entry attached the
three MIB builders fault, although serialization succeeds, where the sibling
`receiveOmciResponse` checks the same pointer and returns an error; with no
device handler attached the drain of a queued request faults. -/
theorem C16_absent_reference_faults :
    sendMibReset tcidSerializer (NewOmciCC none "onu-1" (some sampleHandler) 0 0) 10 true
      = .panicked ∧
    sendMibUpload tcidSerializer (NewOmciCC none "onu-1" (some sampleHandler) 0 0) 10 true
      = .panicked ∧
    sendMibUploadNext tcidSerializer (NewOmciCC none "onu-1" (some sampleHandler) 0 0) 10 true
      = .panicked ∧
    (receiveOmciResponse (NewOmciCC none "onu-1" (some sampleHandler) 0 0)
      ⟨0x8000, MibResetResponseType, 0x0A, []⟩ ⟨[], none⟩ 7).1 =
      some "DeviceEntryPointer is nil" ∧
    (∃ r, sendMibReset tcidSerializer (NewOmciCC (some sampleEntry) "onu-1" none 0 0) 10 true
        = .returned r ∧ r.err = none ∧
      sendNextRequest deviceFound (fun _ _ => none) r.oo = .panicked) :=
  ⟨rfl, rfl, rfl, rfl, _, rfl, rfl, rfl⟩

/-! ## Parameter blocks of the create builders -/

/-- C19: for every UNI port, the parameter block of `sendCreateMBPConfigData`
has entity id 0x2102 + `entityId` in 16-bit arithmetic, `PortNum` = `macBpNo`,
`TpType` = `portType`, `TpPointer` = `entityId` and `BridgeIdPointer` =
0x201 + `macBpNo`, which is the entity id of the parameter blocks of
`sendCreateMBServiceProfile` and `sendCreateEVTOConfigData` for that port; the
block of `sendCreateEVTOConfigData` has `AssociationType` 10 if the port type
is `UniVEIP` and 2 otherwise, and `AssociatedMePointer` = `entityId`. -/
theorem C19_create_parameter_blocks (UniVEIP : Nat) (p : OnuUniPort) (hp : p.wellTyped) :
    (sendCreateMBPConfigData.meParams p).EntityID = (0x2102 + p.entityId) % 65536 ∧
    (sendCreateMBPConfigData.meParams p).Attributes.lookup "PortNum" = some p.macBpNo ∧
    (sendCreateMBPConfigData.meParams p).Attributes.lookup "TpType" = some p.portType ∧
    (sendCreateMBPConfigData.meParams p).Attributes.lookup "TpPointer" = some p.entityId ∧
    (sendCreateMBPConfigData.meParams p).Attributes.lookup "BridgeIdPointer" =
      some (0x201 + p.macBpNo) ∧
    (sendCreateMBServiceProfile.meParams p).EntityID = 0x201 + p.macBpNo ∧
    (sendCreateEVTOConfigData.meParams UniVEIP p).EntityID = 0x201 + p.macBpNo ∧
    (sendCreateEVTOConfigData.meParams UniVEIP p).Attributes.lookup "AssociationType" =
      some (if p.portType = UniVEIP then 10 else 2) ∧
    (sendCreateEVTOConfigData.meParams UniVEIP p).Attributes.lookup "AssociatedMePointer" =
      some p.entityId := by
  obtain ⟨h1, h2, h3⟩ := hp
  have hb : (macBridgeServiceProfileEID + p.macBpNo % 65536) % 65536 = 0x201 + p.macBpNo := by
    unfold macBridgeServiceProfileEID
    omega
  have ht : p.portType % 256 = p.portType := Nat.mod_eq_of_lt h3
  refine ⟨rfl, ?_, ?_, ?_, ?_, hb, hb, ?_, ?_⟩
  · simp [sendCreateMBPConfigData.meParams, List.lookup]
  · simp [sendCreateMBPConfigData.meParams, List.lookup, ht]
  · simp [sendCreateMBPConfigData.meParams, List.lookup]
  · simp [sendCreateMBPConfigData.meParams, List.lookup, hb]
  · simp [sendCreateEVTOConfigData.meParams, List.lookup]
  · simp [sendCreateEVTOConfigData.meParams, List.lookup]

/-- Witness for C19: a VEIP port with bridge port number 1 and entity id 0x0401,
`UniVEIP` taken as 1. -/
theorem C19_create_parameter_blocks_witness :
    (⟨1, 0x0401, 1⟩ : OnuUniPort).wellTyped ∧
    (sendCreateMBPConfigData.meParams ⟨1, 0x0401, 1⟩).EntityID = 0x2503 ∧
    (sendCreateMBPConfigData.meParams ⟨1, 0x0401, 1⟩).Attributes.lookup "BridgeIdPointer" =
      some 0x202 ∧
    (sendCreateEVTOConfigData.meParams 1 ⟨1, 0x0401, 1⟩).Attributes.lookup "AssociationType" =
      some 10 :=
  ⟨by decide,
    (C19_create_parameter_blocks 1 ⟨1, 0x0401, 1⟩ (by decide)).1,
    (C19_create_parameter_blocks 1 ⟨1, 0x0401, 1⟩ (by decide)).2.2.2.2.1,
    (C19_create_parameter_blocks 1 ⟨1, 0x0401, 1⟩ (by decide)).2.2.2.2.2.2.2.1⟩

/-! ## TID allocation: independence of the two counters -/

theorem consecutiveTids_succ (oo : OmciCC) (p : Bool) (k : Nat) :
    consecutiveTids oo p (k + 1) =
      (GetNextTid oo p).1 :: consecutiveTids (GetNextTid oo p).2 p k := rfl

theorem consecutiveTids_low_congr (k : Nat) :
    ∀ oo₁ oo₂ : OmciCC, oo₁.tid = oo₂.tid →
      consecutiveTids oo₁ false k = consecutiveTids oo₂ false k := by
  induction k with
  | zero => intro _ _ _; rfl
  | succ k ih =>
    intro oo₁ oo₂ h
    rw [consecutiveTids_succ, consecutiveTids_succ]
    have h1 : (GetNextTid oo₁ false).1 = (GetNextTid oo₂ false).1 := by
      simp [GetNextTid, h]
    have h2 : (GetNextTid oo₁ false).2.tid = (GetNextTid oo₂ false).2.tid := by
      simp [GetNextTid, h]
    rw [h1, ih _ _ h2]

theorem consecutiveTids_high_congr (k : Nat) :
    ∀ oo₁ oo₂ : OmciCC, oo₁.hpTid = oo₂.hpTid →
      consecutiveTids oo₁ true k = consecutiveTids oo₂ true k := by
  induction k with
  | zero => intro _ _ _; rfl
  | succ k ih =>
    intro oo₁ oo₂ h
    rw [consecutiveTids_succ, consecutiveTids_succ]
    have h1 : (GetNextTid oo₁ true).1 = (GetNextTid oo₂ true).1 := by
      simp [GetNextTid, h]
    have h2 : (GetNextTid oo₁ true).2.hpTid = (GetNextTid oo₂ true).2.hpTid := by
      simp [GetNextTid, h]
    rw [h1, ih _ _ h2]

theorem emittedTo_cons (q p : Bool) (ps : List Bool) (t : Nat) (ts : List Nat) :
    emittedTo q (p :: ps) (t :: ts) =
      if p = q then t :: emittedTo q ps ts else emittedTo q ps ts := by
  unfold emittedTo
  rw [List.zip_cons_cons, List.filterMap_cons]
  by_cases h : p = q
  · simp [h]
  · simp [h]

theorem emittedTo_allocTids (flags : List Bool) :
    ∀ oo : OmciCC,
      emittedTo false flags (allocTids oo flags).1 =
        consecutiveTids oo false (flags.count false) ∧
      emittedTo true flags (allocTids oo flags).1 =
        consecutiveTids oo true (flags.count true) := by
  induction flags with
  | nil => intro _; exact ⟨rfl, rfl⟩
  | cons p ps ih =>
    intro oo
    obtain ⟨i1, i2⟩ := ih (GetNextTid oo p).2
    have hal : (allocTids oo (p :: ps)).1 =
        (GetNextTid oo p).1 :: (allocTids (GetNextTid oo p).2 ps).1 := rfl
    rw [hal, emittedTo_cons, emittedTo_cons, i1, i2]
    cases p
    · refine ⟨?_, ?_⟩
      · rw [if_pos rfl, List.count_cons_self, consecutiveTids_succ]
      · rw [if_neg (by decide), List.count_cons_of_ne (by decide)]
        exact consecutiveTids_high_congr _ _ _ (GetNextTid_low_hpTid oo)
    · refine ⟨?_, ?_⟩
      · rw [if_neg (by decide), List.count_cons_of_ne (by decide)]
        exact consecutiveTids_low_congr _ _ _ (GetNextTid_high_tid oo)
      · rw [if_pos rfl, List.count_cons_self, consecutiveTids_succ]

/-- C21: for every state, `GetNextTid(true)` changes nothing but `hpTid` and
`GetNextTid(false)` nothing but `tid`: the other counter, the frame counters,
the upload progress, the TX queue and its mutex, the RX scheduler map and the
attached references are as before. Hence, along any sequence of calls, the
TCIDs returned to the low-priority calls are those the same number of
low-priority calls alone would return, and likewise for the high-priority
calls. -/
theorem C21_tid_counters_independent (oo : OmciCC) :
    (GetNextTid oo true).2.tid = oo.tid ∧
    (GetNextTid oo false).2.hpTid = oo.hpTid ∧
    (GetNextTid oo true).2 = { oo with hpTid := (GetNextTid oo true).2.hpTid } ∧
    (GetNextTid oo false).2 = { oo with tid := (GetNextTid oo false).2.tid } ∧
    (∀ p : Bool,
      (GetNextTid oo p).2.txFrames = oo.txFrames ∧
      (GetNextTid oo p).2.txOnuFrames = oo.txOnuFrames ∧
      (GetNextTid oo p).2.rxFrames = oo.rxFrames ∧
      (GetNextTid oo p).2.rxOnuFrames = oo.rxOnuFrames ∧
      (GetNextTid oo p).2.rxOnuDiscards = oo.rxOnuDiscards ∧
      (GetNextTid oo p).2.uploadSequNo = oo.uploadSequNo ∧
      (GetNextTid oo p).2.uploadNoOfCmds = oo.uploadNoOfCmds ∧
      (GetNextTid oo p).2.txQueue = oo.txQueue ∧
      (GetNextTid oo p).2.rxSchedulerMap = oo.rxSchedulerMap) ∧
    (∀ flags : List Bool,
      emittedTo false flags (allocTids oo flags).1 =
        consecutiveTids oo false (flags.count false) ∧
      emittedTo true flags (allocTids oo flags).1 =
        consecutiveTids oo true (flags.count true)) := by
  refine ⟨GetNextTid_high_tid oo, GetNextTid_low_hpTid oo, rfl, rfl, ?_,
    fun flags => emittedTo_allocTids flags oo⟩
  intro p
  cases p <;> exact ⟨rfl, rfl, rfl, rfl, rfl, rfl, rfl, rfl, rfl⟩

/-! ## Catalog builders and the detached drain -/

theorem CatalogBuilder.run_eq (UniVEIP : Nat) (NewME : NewManagedEntity)
    (EncodeFrame : EncodeFrame) (SerializeLayers : SerializeLayers) (oo : OmciCC)
    (timeout : Int) (highPrio : Bool) (b : CatalogBuilder) :
    b.run UniVEIP NewME EncodeFrame SerializeLayers oo timeout highPrio =
      sendMeRequest NewME EncodeFrame SerializeLayers (GetNextTid oo highPrio).2
        (GetNextTid oo highPrio).1 b.kind (b.meParams UniVEIP) b.msgType b.addDefaults
        (b.respChan (GetNextTid oo highPrio).2) timeout highPrio := by
  cases b <;> rfl

theorem CatalogBuilder.respChan_GetNextTid (oo : OmciCC) (highPrio : Bool)
    (b : CatalogBuilder) :
    b.respChan (GetNextTid oo highPrio).2 = b.respChan oo := by
  cases b <;> cases highPrio <;> rfl

theorem sendMeRequest_cases (NewME : NewManagedEntity) (EncodeFrame : EncodeFrame)
    (SerializeLayers : SerializeLayers) (oo : OmciCC) (tid : Nat) (kind : MeKind)
    (meParams : ParamData) (msgType : OmciMsgType) (addDefaults : Bool)
    (cbRespChannel : Nat) (timeout : Int) (highPrio : Bool)
    (hfree : oo.mutexTxQueue = false) :
    (∃ meInstance omciLayer msgLayer pkt,
      NewME kind meParams = .ok meInstance ∧
      EncodeFrame meInstance msgType tid addDefaults = .ok (omciLayer, msgLayer) ∧
      serializeOmciLayer SerializeLayers omciLayer msgLayer = .ok pkt ∧
      sendMeRequest NewME EncodeFrame SerializeLayers oo tid kind meParams msgType addDefaults
          (some cbRespChannel) timeout highPrio =
        .returned ⟨some meInstance,
          { oo with
            rxSchedulerMap :=
              Function.update oo.rxSchedulerMap tid
                (some ⟨cbRespChannel, some .receiveOmciResponse⟩),
            txQueue := oo.txQueue ++ [⟨pkt, timeout, 0, highPrio⟩] },
          [.rxMapStore tid ⟨cbRespChannel, some .receiveOmciResponse⟩,
            .txEnqueue ⟨pkt, timeout, 0, highPrio⟩, .goSendNextRequest]⟩) ∨
    (¬ buildsFrame NewME EncodeFrame SerializeLayers kind meParams msgType addDefaults tid ∧
      sendMeRequest NewME EncodeFrame SerializeLayers oo tid kind meParams msgType addDefaults
          (some cbRespChannel) timeout highPrio = .returned ⟨none, oo, []⟩) := by
  unfold sendMeRequest buildsFrame
  cases h1 : NewME kind meParams with
  | error e => right; simp
  | ok me =>
    cases h2 : EncodeFrame me msgType tid addDefaults with
    | error e => right; simp [h2]
    | ok lay =>
      obtain ⟨omciLayer, msgLayer⟩ := lay
      cases h3 : serializeOmciLayer SerializeLayers omciLayer msgLayer with
      | error e => right; simp [h2, h3]
      | ok pkt =>
        left
        refine ⟨me, omciLayer, msgLayer, pkt, rfl, h2, h3, ?_⟩
        simp [h2, h3, Send, hfree]

/-- C22: `Send` never reports a failure, and so a catalog builder returns an
instance exactly when instantiation, encoding and serialization succeed.
In every state and for every argument `Send` does not fault, whenever it returns
it returns nil with the drain only launched (nothing is looked up or handed to
the transport inside the call), and it does return when the transmit-queue lock
is free. For every catalog builder called with the lock free and its response
channel readable: the call returns; the returned instance is non-nil exactly
when the ME constructor, the frame encoder and the serializer all succeed for
the allocated TCID, and then it is the instance the constructor gave; the call
itself makes no device lookup and no transport send; and when an instance is
returned the frame is queued behind the frames already waiting and the drain
launched, and a drain that then runs with a handler attached and finds the
device lookup failing returns an error, which changes nothing of the instance
already returned. -/
theorem C22_send_never_reports_failure (UniVEIP : Nat) (NewME : NewManagedEntity)
    (EncodeFrame : EncodeFrame) (SerializeLayers : SerializeLayers) (oo : OmciCC)
    (timeout : Int) (highPrio : Bool) (b : CatalogBuilder)
    (hchan : b.respChan oo ≠ none) (hfree : oo.mutexTxQueue = false) :
    (∀ (st : OmciCC) (txFrame : List Nat) (t retry : Int) (p : Bool) (pair : CallbackPair),
      Send st txFrame t retry p pair ≠ .panicked ∧
      (∀ r, Send st txFrame t retry p pair = .returned r →
        r.err = none ∧ r.events.getLast? = some .goSendNextRequest ∧
        handedOver r.events = []) ∧
      (st.mutexTxQueue = false → ∃ r, Send st txFrame t retry p pair = .returned r)) ∧
    ∃ r, b.run UniVEIP NewME EncodeFrame SerializeLayers oo timeout highPrio = .returned r ∧
      (r.meInstance ≠ none ↔
        buildsFrame NewME EncodeFrame SerializeLayers b.kind (b.meParams UniVEIP) b.msgType
          b.addDefaults (GetNextTid oo highPrio).1) ∧
      (∀ meInstance, NewME b.kind (b.meParams UniVEIP) = .ok meInstance →
        r.meInstance ≠ none → r.meInstance = some meInstance) ∧
      handedOver r.events = [] ∧
      (∀ parent child device err, Event.getDevice parent child device err ∉ r.events) ∧
      (r.meInstance ≠ none →
        r.events.getLast? = some .goSendNextRequest ∧
        (∃ pkt, r.oo.txQueue = oo.txQueue ++ [⟨pkt, timeout, 0, highPrio⟩]) ∧
        ∀ (GetDevice : Nat → String → String → Option Nat × Option String)
          (SendInterAdapterMessage : Nat → List Nat → Option String) (dh : DeviceHandler),
          oo.pBaseDeviceHandler = some dh →
          ((GetDevice 0 dh.deviceID oo.deviceID).2 ≠ none ∨
            (GetDevice 0 dh.deviceID oo.deviceID).1 = none) →
          ∃ res, sendNextRequest GetDevice SendInterAdapterMessage r.oo = .returned res ∧
            res.err = some "failed to fetch device") := by
  constructor
  · intro st txFrame t retry p pair
    refine ⟨?_, ?_, ?_⟩
    · unfold Send
      simp only []
      split_ifs <;> simp
    · intro r hr
      obtain ⟨_, rfl⟩ := Send_returned st txFrame t retry p pair r hr
      exact ⟨rfl, rfl, rfl⟩
    · intro hst
      unfold Send
      simp [hst]
  · obtain ⟨ch, hch⟩ := Option.ne_none_iff_exists'.mp hchan
    have hfree' : (GetNextTid oo highPrio).2.mutexTxQueue = false := by
      rw [(GetNextTid_frame oo highPrio).2.1]; exact hfree
    rw [CatalogBuilder.run_eq, CatalogBuilder.respChan_GetNextTid, hch]
    rcases sendMeRequest_cases NewME EncodeFrame SerializeLayers (GetNextTid oo highPrio).2
        (GetNextTid oo highPrio).1 b.kind (b.meParams UniVEIP) b.msgType b.addDefaults ch
        timeout highPrio hfree' with ⟨me, omciLayer, msgLayer, pkt, h1, h2, h3, hrun⟩ | ⟨hno, hrun⟩
    · refine ⟨_, hrun, ?_, ?_, rfl, ?_, ?_⟩
      · exact ⟨fun _ => ⟨me, omciLayer, msgLayer, pkt, h1, h2, h3⟩, fun _ => by simp⟩
      · intro me' hme' _
        rw [h1] at hme'
        cases hme'
        rfl
      · intro parent child device err
        simp
      · intro _
        refine ⟨rfl, ⟨pkt, ?_⟩, ?_⟩
        · simp only [(GetNextTid_frame oo highPrio).2.2.1]
        · intro GetDevice SendInterAdapterMessage dh hdh hfail
          have hq : ∃ d rest, (GetNextTid oo highPrio).2.txQueue ++
              [(⟨pkt, timeout, 0, highPrio⟩ : omciTransferStructure)] = d :: rest := by
            cases (GetNextTid oo highPrio).2.txQueue with
            | nil => exact ⟨_, _, rfl⟩
            | cons d rest => exact ⟨_, _, rfl⟩
          obtain ⟨d, rest, hq⟩ := hq
          have hdh' : (GetNextTid oo highPrio).2.pBaseDeviceHandler = some dh := by
            cases highPrio <;> exact hdh
          have hid : (GetNextTid oo highPrio).2.deviceID = oo.deviceID := by
            cases highPrio <;> rfl
          unfold sendNextRequest
          simp only [hfree', hq, Bool.false_eq_true, if_false]
          unfold drainLoop
          simp only [hdh', hid]
          rw [if_pos hfail]
          exact ⟨_, rfl, rfl⟩
    · refine ⟨_, hrun, ?_, ?_, rfl, ?_, ?_⟩
      · exact ⟨fun h => absurd rfl h, fun h => absurd h hno⟩
      · intro _ _ h
        exact absurd rfl h
      · intro parent child device err
        simp
      · intro h
        exact absurd rfl h

/-- Witness for C22: on a fresh attached channel the GAL Ethernet profile
builder returns the instance of the constructor, although the drain that then
runs finds no device and returns an error; with a failing encoder it returns
nil. -/
theorem C22_send_never_reports_failure_witness :
    CatalogBuilder.createGalEthernetProfile.respChan freshAttached ≠ none ∧
    freshAttached.mutexTxQueue = false ∧
    (∃ r, sendCreateGalEthernetProfile sampleNewME sampleEncodeFrame tcidSerializer
        freshAttached 10 true = .returned r ∧
      r.meInstance = some ⟨1⟩ ∧
      r.oo.txQueue = [⟨[0x80, 0x00], 10, 0, true⟩] ∧
      ∃ res, sendNextRequest deviceLookupFails (fun _ _ => none) r.oo = .returned res ∧
        res.err = some "failed to fetch device") ∧
    (∃ r, sendCreateGalEthernetProfile sampleNewME failingEncodeFrame tcidSerializer
        freshAttached 10 true = .returned r ∧ r.meInstance = none) := by
  have hchan : CatalogBuilder.createGalEthernetProfile.respChan freshAttached ≠ none := by
    decide
  refine ⟨hchan, rfl, ?_, ?_⟩
  · obtain ⟨r, hr, hiff, hme, _, _, hq⟩ :=
      (C22_send_never_reports_failure 0 sampleNewME sampleEncodeFrame tcidSerializer
        freshAttached 10 true .createGalEthernetProfile hchan rfl).2
    have hbuilt : r.meInstance ≠ none :=
      hiff.mpr ⟨⟨1⟩, ⟨0x8000, .CreateRequestType⟩, .encoded 0, [0x80, 0x00], rfl, rfl, rfl⟩
    obtain ⟨_, ⟨pkt, hpkt⟩, hdrain⟩ := hq hbuilt
    refine ⟨r, hr, hme ⟨1⟩ rfl hbuilt, ?_, hdrain deviceLookupFails (fun _ _ => none)
      sampleHandler rfl (Or.inl (by decide))⟩
    have hr' : sendCreateGalEthernetProfile sampleNewME sampleEncodeFrame tcidSerializer
        freshAttached 10 true = .returned r := hr
    have hev : sendCreateGalEthernetProfile sampleNewME sampleEncodeFrame tcidSerializer
        freshAttached 10 true = .returned ⟨some ⟨1⟩,
          { (GetNextTid freshAttached true).2 with
            rxSchedulerMap := Function.update (GetNextTid freshAttached true).2.rxSchedulerMap
              0x8000 (some ⟨8, some .receiveOmciResponse⟩),
            txQueue := [⟨[0x80, 0x00], 10, 0, true⟩] },
          [.rxMapStore 0x8000 ⟨8, some .receiveOmciResponse⟩,
            .txEnqueue ⟨[0x80, 0x00], 10, 0, true⟩, .goSendNextRequest]⟩ := rfl
    rw [hev] at hr'
    cases hr'
    rfl
  · obtain ⟨r, hr, hiff, _⟩ :=
      (C22_send_never_reports_failure 0 sampleNewME failingEncodeFrame tcidSerializer
        freshAttached 10 true .createGalEthernetProfile hchan rfl).2
    refine ⟨r, hr, ?_⟩
    by_contra hne
    obtain ⟨me, omciLayer, msgLayer, pkt, _, h2, _⟩ := hiff.mp hne
    cases h2

end adaptercoreonu
